import Mathlib

/-!
Verification of the secrets runtime and migration core of the openclaw
gateway against its natural-language specification.

The development shallowly embeds the TypeScript sources:

* `src/secrets/migrate/plan.ts` — migration planning (`scrubEnvRaw`,
  `parseEnvValue`, the per-site migrate functions, `resolveFileSource`,
  `decryptSopsJson`, the auth-store loop and plan assembly);
* `src/secrets/sops.ts` — the external-tool driver error normalization
  (`toSopsError`, `decryptSopsJsonFile`, `encryptSopsJsonFile`);
* `src/secrets/runtime.ts` — reference resolution
  (`resolveFileSecretPayload`, `resolveSecretRefValue`);
* `src/secrets/migrate.ts` — `applyMigrationPlan`.

JavaScript values are modelled by the inductive `Json`; JavaScript `Set`
objects by lists with membership-guarded insertion; the filesystem and the
subprocess runner by explicit inputs.  Helper modules of the repository
that are not part of the given sources (the JSON-pointer codec, `shared.ts`
predicates, `backup.ts`) are modelled from the specification; each such
definition carries a doc comment saying so.
-/

/-- A JSON value, the model of the JavaScript values the secrets core
manipulates.  Objects are ordered field lists, matching JavaScript's
insertion-ordered own properties. -/
inductive Json where
  | null
  | bool (b : Bool)
  | num (n : Int)
  | str (s : String)
  | arr (elems : List Json)
  | obj (fields : List (String × Json))
deriving Repr

mutual

/-- Model of node's `util.isDeepStrictEqual` on the values the migration
compares (strings and cloned JSON documents).  Objects are compared as
ordered field lists. -/
def isDeepStrictEqual : Json → Json → Bool
  | .null, .null => true
  | .bool a, .bool b => a == b
  | .num a, .num b => a == b
  | .str a, .str b => a == b
  | .arr xs, .arr ys => jsonArrEq xs ys
  | .obj xs, .obj ys => jsonObjEq xs ys
  | _, _ => false

def jsonArrEq : List Json → List Json → Bool
  | [], [] => true
  | x :: xs, y :: ys => isDeepStrictEqual x y && jsonArrEq xs ys
  | _, _ => false

def jsonObjEq : List (String × Json) → List (String × Json) → Bool
  | [], [] => true
  | (k, v) :: xs, (k2, v2) :: ys => k == k2 && isDeepStrictEqual v v2 && jsonObjEq xs ys
  | _, _ => false

end

/-- `util.isDeepStrictEqual` lifted to possibly-`undefined` values
(`none` models JavaScript `undefined`). -/
def isDeepStrictEqualOpt : Option Json → Option Json → Bool
  | none, none => true
  | some a, some b => isDeepStrictEqual a b
  | _, _ => false

/-- Association-list lookup: JavaScript property read `o[k]`. -/
def assocLookup (fields : List (String × Json)) (k : String) : Option Json :=
  match fields with
  | [] => none
  | (k2, v) :: rest => if k2 = k then some v else assocLookup rest k

/-- Association-list update: JavaScript property assignment `o[k] = x`
(replaces in place, or appends a new key at the end). -/
def assocSet (fields : List (String × Json)) (k : String) (x : Json) :
    List (String × Json) :=
  match fields with
  | [] => [(k, x)]
  | (k2, v) :: rest => if k2 = k then (k2, x) :: rest else (k2, v) :: assocSet rest k x

/-- Association-list removal: JavaScript `delete o[k]`. -/
def assocDelete (fields : List (String × Json)) (k : String) :
    List (String × Json) :=
  match fields with
  | [] => []
  | (k2, v) :: rest => if k2 = k then rest else (k2, v) :: assocDelete rest k

/-- Property read `v[k]`; `none` for missing keys and non-objects. -/
def objLookup (v : Json) (k : String) : Option Json :=
  match v with
  | .obj fields => assocLookup fields k
  | _ => none

/-- Property assignment on an object; non-objects are returned unchanged
(the embedded code only assigns on values it has checked to be objects). -/
def objSet (v : Json) (k : String) (x : Json) : Json :=
  match v with
  | .obj fields => .obj (assocSet fields k x)
  | _ => v

/-- Property deletion on an object; non-objects are returned unchanged. -/
def objDelete (v : Json) (k : String) : Json :=
  match v with
  | .obj fields => .obj (assocDelete fields k)
  | _ => v

/-- `isRecord` of `shared.ts`.  Modelled from the spec: the payload guard
accepts exactly JSON objects (not arrays, not scalars). -/
def isRecord (v : Json) : Bool :=
  match v with
  | .obj _ => true
  | _ => false

def isRecordOpt (v : Option Json) : Bool :=
  match v with
  | some x => isRecord x
  | none => false

/-- The characters matched by JavaScript's regexp class backslash-s and
removed by `String.prototype.trim`. -/
def isJsSpace (c : Char) : Bool :=
  c = ' ' || c = '\t' || c = '\n' || c = '\x0b' || c = '\x0c' || c = '\r' ||
  c = '\u00A0' || c = '\u1680' || ('\u2000' ≤ c && c ≤ '\u200A') ||
  c = '\u2028' || c = '\u2029' || c = '\u202F' || c = '\u205F' ||
  c = '\u3000' || c = '\uFEFF'

/-- JavaScript line terminators, which the regexp dot does not match. -/
def isJsLineTerm (c : Char) : Bool :=
  c = '\n' || c = '\r' || c = '\u2028' || c = '\u2029'

/-- Emptiness, head and last-character tests and lower-casing, written
over the character list so that they evaluate inside the kernel. -/
def strIsEmpty (s : String) : Bool := s.toList.isEmpty

def strStartsWithChar (s : String) (c : Char) : Bool :=
  match s.toList with
  | [] => false
  | c2 :: _ => c2 = c

def strEndsWithChar (s : String) (c : Char) : Bool :=
  match s.toList.getLast? with
  | some c2 => c2 = c
  | none => false

def strToLower (s : String) : String := String.mk (s.toList.map Char.toLower)

/-- JavaScript `String.prototype.trim`. -/
def jsTrim (s : String) : String :=
  String.mk (((s.toList.dropWhile isJsSpace).reverse.dropWhile isJsSpace).reverse)

/-- `isNonEmptyString` of `shared.ts`.  Modelled from the spec: a string
value that is non-empty after trimming (the spec's "non-empty string",
with the migration always trimming the accepted value). -/
def isNonEmptyString (v : Json) : Bool :=
  match v with
  | .str s => !strIsEmpty (jsTrim s)
  | _ => false

def isNonEmptyStringOpt (v : Option Json) : Bool :=
  match v with
  | some x => isNonEmptyString x
  | none => false

/-- The string carried by a JSON value known to be a string; used right
after an `isNonEmptyString` guard, mirroring the TypeScript narrowing. -/
def asString (v : Option Json) : String :=
  match v with
  | some (.str s) => s
  | _ => ""

/-- `String.prototype.split` on the regexp backslash-r-optional
backslash-n: CRLF or LF separate lines, a lone CR does not. -/
def splitCrlf : List Char → List (List Char)
  | [] => [[]]
  | '\r' :: '\n' :: rest => [] :: splitCrlf rest
  | '\n' :: rest => [] :: splitCrlf rest
  | c :: rest =>
    match splitCrlf rest with
    | l :: ls => (c :: l) :: ls
    | [] => [[c]]

/-- Join lines with a newline separator (`Array.prototype.join("\n")`). -/
def joinNewline : List String → String
  | [] => ""
  | [l] => l
  | l :: rest => l ++ "\n" ++ joinNewline rest

/-- First character is `[A-Za-z_]`. -/
def isEnvKeyStart (c : Char) : Bool :=
  ('A' ≤ c && c ≤ 'Z') || ('a' ≤ c && c ≤ 'z') || c = '_'

/-- Subsequent key characters are `[A-Za-z0-9_]`. -/
def isEnvKeyChar (c : Char) : Bool :=
  isEnvKeyStart c || ('0' ≤ c && c ≤ '9')

def startsWithChars : List Char → List Char → Bool
  | [], _ => true
  | _ :: _, [] => false
  | p :: ps, c :: cs => p == c && startsWithChars ps cs

/-- Match `KEY = VALUE` starting at `cs` (already past the leading
whitespace and any `export` keyword): a `[A-Za-z_][A-Za-z0-9_]*` key, then
optional whitespace, `=`, optional whitespace, and a value that the
regexp's dot-star-dollar can reach — i.e. one free of line terminators. -/
def matchEnvKeyValue (cs : List Char) : Option (String × String) :=
  let key := cs.takeWhile isEnvKeyChar
  match key with
  | [] => none
  | k0 :: _ =>
    if !isEnvKeyStart k0 then none
    else
      let rest := (cs.drop key.length).dropWhile isJsSpace
      match rest with
      | '=' :: afterEq =>
        let value := afterEq.dropWhile isJsSpace
        if value.any isJsLineTerm then none
        else some (String.mk key, String.mk value)
      | _ => none

/-- The line pattern of `scrubEnvRaw`: leading whitespace, an optional
`export` keyword followed by whitespace, a key and a value.  The branch
with `export` is preferred, with fallback when the remainder fails, the
way the regexp engine backtracks over the optional group. -/
def matchEnvLine (line : String) : Option (String × String) :=
  let cs := line.toList.dropWhile isJsSpace
  let viaExport :=
    if startsWithChars "export".toList cs then
      match cs.drop 6 with
      | c :: restAfter =>
        if isJsSpace c then matchEnvKeyValue ((c :: restAfter).dropWhile isJsSpace)
        else none
      | [] => none
    else none
  match viaExport with
  | some r => some r
  | none => matchEnvKeyValue cs

/-- `parseEnvValue` of `plan.ts`: trim, then strip one matched pair of
surrounding single or double quotes. -/
def parseEnvValue (raw : String) : String :=
  let trimmed := jsTrim raw
  let cs := trimmed.toList
  if (strStartsWithChar trimmed '"' && strEndsWithChar trimmed '"') ||
      (strStartsWithChar trimmed '\x27' && strEndsWithChar trimmed '\x27') then
    String.mk ((cs.drop 1).dropLast)
  else trimmed

structure ScrubResult where
  nextRaw : String
  removed : Nat
deriving Repr, DecidableEq

/-- One pass of `scrubEnvRaw`'s loop body over a line. -/
def scrubStep (migratedValues allowedEnvKeys : List String)
    (acc : List String × Nat) (line : String) : List String × Nat :=
  match matchEnvLine line with
  | none => (acc.1 ++ [line], acc.2)
  | some (envKey, rawValue) =>
    if !allowedEnvKeys.contains envKey then (acc.1 ++ [line], acc.2)
    else if migratedValues.contains (parseEnvValue rawValue) then (acc.1, acc.2 + 1)
    else (acc.1 ++ [line], acc.2)

/-- `scrubEnvRaw` of `plan.ts`.  The JavaScript `Set` arguments are
modelled as lists queried by membership. -/
def scrubEnvRaw (raw : String) (migratedValues allowedEnvKeys : List String) :
    ScrubResult :=
  if migratedValues.isEmpty || allowedEnvKeys.isEmpty then ⟨raw, 0⟩
  else
    let lines := (splitCrlf raw.toList).map String.mk
    let folded := lines.foldl (scrubStep migratedValues allowedEnvKeys) ([], 0)
    let hadTrailingNewline := strEndsWithChar raw '\n'
    let joined := joinNewline folded.1
    ⟨if hadTrailingNewline || strIsEmpty joined then
        joined ++ (if strEndsWithChar joined '\n' then "" else "\n")
      else joined,
      folded.2⟩

/-- The value parse of claim C1's reference definition: strip one matched
pair of surrounding quotes, then trim. -/
def claimedParseEnvValue (raw : String) : String :=
  let cs := raw.toList
  let stripped :=
    if (strStartsWithChar raw '"' && strEndsWithChar raw '"') ||
        (strStartsWithChar raw '\x27' && strEndsWithChar raw '\x27') then
      String.mk ((cs.drop 1).dropLast)
    else raw
  jsTrim stripped

/-- Keep-predicate of the reference scrub: a line survives unless it
matches, its key is allow-listed and its parsed value is migrated. -/
def claimedKeepLine (migratedValues allowedEnvKeys : List String)
    (line : String) : Bool :=
  match matchEnvLine line with
  | none => true
  | some (envKey, rawValue) =>
    !(allowedEnvKeys.contains envKey &&
      migratedValues.contains (claimedParseEnvValue rawValue))

/-- The env-scrub reference definition exactly as claim C1 states it: no
special case for empty sets, values parsed by stripping quotes and then
trimming, trailing newline preserved when the original had one, an empty
result still ending with a newline. -/
def claimedScrubEnvRaw (raw : String) (migratedValues allowedEnvKeys : List String) :
    ScrubResult :=
  let lines := (splitCrlf raw.toList).map String.mk
  let kept := lines.filter (claimedKeepLine migratedValues allowedEnvKeys)
  let removed := lines.countP (fun l => !claimedKeepLine migratedValues allowedEnvKeys l)
  let joined := joinNewline kept
  ⟨if strIsEmpty joined then "\n"
    else if strEndsWithChar raw '\n' then
      (if strEndsWithChar joined '\n' then joined else joined ++ "\n")
    else joined,
    removed⟩

/-- Keep-predicate matching the code's parse order (trim, then strip). -/
def amendedKeepLine (migratedValues allowedEnvKeys : List String)
    (line : String) : Bool :=
  match matchEnvLine line with
  | none => true
  | some (envKey, rawValue) =>
    !(allowedEnvKeys.contains envKey &&
      migratedValues.contains (parseEnvValue rawValue))

/-- The amended reference definition of the env scrub: as claimed, except
that when either set is empty the input is returned unchanged with zero
removals, and the value is parsed by trimming first and then stripping one
matched pair of quotes (without re-trimming). -/
def amendedScrubEnvRaw (raw : String) (migratedValues allowedEnvKeys : List String) :
    ScrubResult :=
  if migratedValues.isEmpty || allowedEnvKeys.isEmpty then ⟨raw, 0⟩
  else
    let lines := (splitCrlf raw.toList).map String.mk
    let kept := lines.filter (amendedKeepLine migratedValues allowedEnvKeys)
    let removed := lines.countP (fun l => !amendedKeepLine migratedValues allowedEnvKeys l)
    let hadTrailingNewline := strEndsWithChar raw '\n'
    let joined := joinNewline kept
    ⟨if hadTrailingNewline || strIsEmpty joined then
        joined ++ (if strEndsWithChar joined '\n' then "" else "\n")
      else joined,
      removed⟩

/-- `encodeJsonPointerToken` of `json-pointer.ts`.  Modelled from the
spec: RFC6901 escaping, tilde to tilde-zero and slash to tilde-one. -/
def encodeJsonPointerToken (s : String) : String :=
  String.join (s.toList.map fun c =>
    if c = '~' then "~0" else if c = '/' then "~1" else String.mk [c])

def decodePointerChars : List Char → List Char
  | [] => []
  | '~' :: '0' :: rest => '~' :: decodePointerChars rest
  | '~' :: '1' :: rest => '/' :: decodePointerChars rest
  | c :: rest => c :: decodePointerChars rest

/-- RFC6901 token decoding.  Modelled from the spec. -/
def decodeJsonPointerToken (t : String) : String :=
  String.mk (decodePointerChars t.toList)

/-- Tokenize an absolute JSON pointer.  Modelled from the spec: the empty
pointer addresses the root, any other pointer must start with a slash. -/
def splitOnChar (sep : Char) : List Char → List (List Char)
  | [] => [[]]
  | c :: rest =>
    if c = sep then [] :: splitOnChar sep rest
    else
      match splitOnChar sep rest with
      | l :: ls => (c :: l) :: ls
      | [] => [[c]]

def parseJsonPointer (p : String) : Option (List String) :=
  if strIsEmpty p then some []
  else if strStartsWithChar p '/' then
    some ((splitOnChar '/' (p.toList.drop 1)).map
      (fun cs => decodeJsonPointerToken (String.mk cs)))
  else none

def jsonGetAt : Json → List String → Option Json
  | v, [] => some v
  | .obj fields, t :: ts =>
    match assocLookup fields t with
    | some c => jsonGetAt c ts
    | none => none
  | .arr elems, t :: ts =>
    match t.toNat? with
    | some i =>
      match elems.get? i with
      | some c => jsonGetAt c ts
      | none => none
    | none => none
  | _, _ :: _ => none

/-- `readJsonPointer(root, pointer, { onMissing: "undefined" })` of
`json-pointer.ts`, as wrapped at the top of `plan.ts`.  Modelled from the
spec; `none` models the absent (`undefined`) result. -/
def readJsonPointerU (root : Json) (pointer : String) : Option Json :=
  match parseJsonPointer pointer with
  | some ts => jsonGetAt root ts
  | none => none

def jsonSetAt : Json → List String → Json → Except String Json
  | _, [], value => .ok value
  | root, t :: ts, value =>
    match root with
    | .obj fields =>
      (match assocLookup fields t with
        | some child =>
          (jsonSetAt child ts value).map fun c2 => Json.obj (assocSet fields t c2)
        | none =>
          (jsonSetAt (Json.obj []) ts value).map fun c2 => Json.obj (assocSet fields t c2))
    | _ => .error "Cannot set JSON pointer through a non-object value"

/-- `setJsonPointer` of `json-pointer.ts`.  Modelled from the spec:
creates intermediate objects where missing, fails when an intermediate is
not an object. -/
def setJsonPointer (root : Json) (pointer : String) (value : Json) :
    Except String Json :=
  match parseJsonPointer pointer with
  | some ts => jsonSetAt root ts value
  | none => .error ("Invalid JSON pointer: " ++ pointer)

/-- `isSecretRef` of `config/types.secrets.ts`.  Modelled from the spec: a
SecretRef is an object carrying exactly a `source` of "env" or "file" and
a string `id`; any other shape is not a SecretRef. -/
def isSecretRef (v : Json) : Bool :=
  match v with
  | .obj fields =>
    fields.length == 2 &&
    (match assocLookup fields "source", assocLookup fields "id" with
      | some (.str src), some (.str _) => src == "env" || src == "file"
      | _, _ => false)
  | _ => false

def isSecretRefOpt (v : Option Json) : Bool :=
  match v with
  | some x => isSecretRef x
  | none => false

/-- The `{ source: "file", id }` reference the migration writes back. -/
def secretRefJson (id : String) : Json :=
  .obj [("source", .str "file"), ("id", .str id)]

/-- JavaScript strict equality of a possibly-absent value with a string
literal, as in `profileValue.type === "api_key"`. -/
def strictEqString (v : Option Json) (s : String) : Bool :=
  match v with
  | some (.str s2) => s2 == s
  | _ => false

structure MigrationCounters where
  configRefs : Nat
  authProfileRefs : Nat
  plaintextRemoved : Nat
  secretsWritten : Nat
  envEntriesRemoved : Nat
  authStoresChanged : Nat
deriving Repr, DecidableEq

def initialCounters : MigrationCounters := ⟨0, 0, 0, 0, 0, 0⟩

/-- The mutable state the walk of `buildMigrationPlan` threads through
the per-site migrate functions. -/
structure WalkState where
  payload : Json
  counters : MigrationCounters
  migratedValues : List String
deriving Repr

/-- JavaScript `Set.add` on the migrated-values set, keeping insertion
order. -/
def addMigratedValue (values : List String) (v : String) : List String :=
  if values.contains v then values else values ++ [v]

/-- Per-provider body of `migrateModelProviderSecrets` (plan.ts). -/
def migrateProviderEntry (providerId : String) (provider : Json) (st : WalkState) :
    Except String (Json × WalkState) :=
  let apiKey := objLookup provider "apiKey"
  if isSecretRefOpt apiKey then .ok (provider, st)
  else if !isNonEmptyStringOpt apiKey then .ok (provider, st)
  else
    let value := jsTrim (asString apiKey)
    let id := "/providers/" ++ encodeJsonPointerToken providerId ++ "/apiKey"
    let existing := readJsonPointerU st.payload id
    let writeStep : Except String (Json × Nat) :=
      if !isDeepStrictEqualOpt existing (some (.str value)) then
        (setJsonPointer st.payload id (.str value)).map fun p =>
          (p, st.counters.secretsWritten + 1)
      else .ok (st.payload, st.counters.secretsWritten)
    writeStep.map fun r =>
      (objSet provider "apiKey" (secretRefJson id),
        { payload := r.1,
          counters := { st.counters with
            secretsWritten := r.2,
            configRefs := st.counters.configRefs + 1 },
          migratedValues := addMigratedValue st.migratedValues value })

/-- `migrateModelProviderSecrets` of plan.ts over the providers map
(`none` when `config.models?.providers` is absent). -/
def migrateModelProviderSecrets (providers : Option (List (String × Json)))
    (st : WalkState) :
    Except String (Option (List (String × Json)) × WalkState) :=
  match providers with
  | none => .ok (none, st)
  | some entries =>
    (entries.foldlM (fun (acc : List (String × Json) × WalkState) e =>
        (migrateProviderEntry e.1 e.2 acc.2).map fun r => (acc.1 ++ [(e.1, r.1)], r.2))
      ([], st)).map fun r => (some r.1, r.2)

/-- Per-entry body of `migrateSkillEntrySecrets` (plan.ts). -/
def migrateSkillEntry (skillKey : String) (entry : Json) (st : WalkState) :
    Except String (Json × WalkState) :=
  if !isRecord entry || isSecretRefOpt (objLookup entry "apiKey") then .ok (entry, st)
  else if !isNonEmptyStringOpt (objLookup entry "apiKey") then .ok (entry, st)
  else
    let value := jsTrim (asString (objLookup entry "apiKey"))
    let id := "/skills/entries/" ++ encodeJsonPointerToken skillKey ++ "/apiKey"
    let existing := readJsonPointerU st.payload id
    let writeStep : Except String (Json × Nat) :=
      if !isDeepStrictEqualOpt existing (some (.str value)) then
        (setJsonPointer st.payload id (.str value)).map fun p =>
          (p, st.counters.secretsWritten + 1)
      else .ok (st.payload, st.counters.secretsWritten)
    writeStep.map fun r =>
      (objSet entry "apiKey" (secretRefJson id),
        { payload := r.1,
          counters := { st.counters with
            secretsWritten := r.2,
            configRefs := st.counters.configRefs + 1 },
          migratedValues := addMigratedValue st.migratedValues value })

/-- `migrateSkillEntrySecrets` of plan.ts over the skills entries map. -/
def migrateSkillEntrySecrets (entries : Option (List (String × Json)))
    (st : WalkState) :
    Except String (Option (List (String × Json)) × WalkState) :=
  match entries with
  | none => .ok (none, st)
  | some es =>
    (es.foldlM (fun (acc : List (String × Json) × WalkState) e =>
        (migrateSkillEntry e.1 e.2 acc.2).map fun r => (acc.1 ++ [(e.1, r.1)], r.2))
      ([], st)).map fun r => (some r.1, r.2)

/-- `migrateGoogleChatServiceAccount` of plan.ts.  Its parameters are
exactly the source's: the account object, the pointer prefix, the payload
and the counters — it does not receive the migrated-values set. -/
def migrateGoogleChatServiceAccount (account : Json) (pointerId : String)
    (payload : Json) (counters : MigrationCounters) :
    Except String (Json × Json × MigrationCounters) :=
  let explicitRef := isSecretRefOpt (objLookup account "serviceAccountRef")
  let inlineRef := isSecretRefOpt (objLookup account "serviceAccount")
  if explicitRef || inlineRef then
    if (objLookup account "serviceAccount").isSome &&
        !isSecretRefOpt (objLookup account "serviceAccount") then
      .ok (objDelete account "serviceAccount", payload,
        { counters with plaintextRemoved := counters.plaintextRemoved + 1 })
    else .ok (account, payload, counters)
  else
    let value := objLookup account "serviceAccount"
    let hasStringValue := isNonEmptyStringOpt value
    let hasObjectValue :=
      match value with
      | some (.obj fields) => !fields.isEmpty
      | _ => false
    if !hasStringValue && !hasObjectValue then .ok (account, payload, counters)
    else
      let id := pointerId ++ "/serviceAccount"
      let normalizedValue :=
        if hasStringValue then Json.str (jsTrim (asString value))
        else value.getD Json.null
      let existing := readJsonPointerU payload id
      let writeStep : Except String (Json × Nat) :=
        if !isDeepStrictEqualOpt existing (some normalizedValue) then
          (setJsonPointer payload id normalizedValue).map fun p =>
            (p, counters.secretsWritten + 1)
        else .ok (payload, counters.secretsWritten)
      writeStep.map fun r =>
        (objDelete (objSet account "serviceAccountRef" (secretRefJson id)) "serviceAccount",
          r.1,
          { counters with
            secretsWritten := r.2,
            configRefs := counters.configRefs + 1 })

/-- `migrateGoogleChatSecrets` of plan.ts: the top-level account, then
every entry of `googlechat.accounts` that is an object. -/
def migrateGoogleChatSecrets (googlechat : Option Json) (payload : Json)
    (counters : MigrationCounters) :
    Except String (Option Json × Json × MigrationCounters) :=
  if !isRecordOpt googlechat then .ok (googlechat, payload, counters)
  else
    let gc := googlechat.getD Json.null
    (migrateGoogleChatServiceAccount gc "/channels/googlechat" payload counters).bind
      fun r1 =>
        let gc1 := r1.1
        if !isRecordOpt (objLookup gc1 "accounts") then .ok (some gc1, r1.2.1, r1.2.2)
        else
          let accountFields :=
            match objLookup gc1 "accounts" with
            | some (.obj fs) => fs
            | _ => []
          ((accountFields.foldlM
              (fun (acc : List (String × Json) × Json × MigrationCounters) e =>
                if !isRecord e.2 then .ok (acc.1 ++ [e], acc.2.1, acc.2.2)
                else
                  (migrateGoogleChatServiceAccount e.2
                    ("/channels/googlechat/accounts/" ++ encodeJsonPointerToken e.1)
                    acc.2.1 acc.2.2).map
                    fun r2 => (acc.1 ++ [(e.1, r2.1)], r2.2.1, r2.2.2))
              ([], r1.2.1, r1.2.2)).map
            fun r3 =>
              (some (objSet gc1 "accounts" (Json.obj r3.1)), r3.2.1, r3.2.2))

/-- Per-profile body of `migrateAuthStoreSecrets` (plan.ts).  The flag
reports whether this profile changed the store. -/
def migrateAuthProfileEntry (scope profileId : String) (profileValue : Json)
    (st : WalkState) : Except String (Json × WalkState × Bool) :=
  if !isRecord profileValue then .ok (profileValue, st, false)
  else if strictEqString (objLookup profileValue "type") "api_key" then
    let keyRef := isSecretRefOpt (objLookup profileValue "keyRef")
    let key :=
      if isNonEmptyStringOpt (objLookup profileValue "key") then
        jsTrim (asString (objLookup profileValue "key"))
      else ""
    if keyRef then
      if !strIsEmpty key then
        .ok (objDelete profileValue "key",
          { st with counters := { st.counters with
              plaintextRemoved := st.counters.plaintextRemoved + 1 } },
          true)
      else .ok (profileValue, st, false)
    else if strIsEmpty key then .ok (profileValue, st, false)
    else
      let id := "/auth-profiles/" ++ encodeJsonPointerToken scope ++ "/" ++
        encodeJsonPointerToken profileId ++ "/key"
      let existing := readJsonPointerU st.payload id
      let writeStep : Except String (Json × Nat) :=
        if !isDeepStrictEqualOpt existing (some (Json.str key)) then
          (setJsonPointer st.payload id (Json.str key)).map fun p =>
            (p, st.counters.secretsWritten + 1)
        else .ok (st.payload, st.counters.secretsWritten)
      writeStep.map fun r =>
        (objDelete (objSet profileValue "keyRef" (secretRefJson id)) "key",
          { payload := r.1,
            counters := { st.counters with
              secretsWritten := r.2,
              authProfileRefs := st.counters.authProfileRefs + 1 },
            migratedValues := addMigratedValue st.migratedValues key },
          true)
  else if strictEqString (objLookup profileValue "type") "token" then
    let tokenRef := isSecretRefOpt (objLookup profileValue "tokenRef")
    let token :=
      if isNonEmptyStringOpt (objLookup profileValue "token") then
        jsTrim (asString (objLookup profileValue "token"))
      else ""
    if tokenRef then
      if !strIsEmpty token then
        .ok (objDelete profileValue "token",
          { st with counters := { st.counters with
              plaintextRemoved := st.counters.plaintextRemoved + 1 } },
          true)
      else .ok (profileValue, st, false)
    else if strIsEmpty token then .ok (profileValue, st, false)
    else
      let id := "/auth-profiles/" ++ encodeJsonPointerToken scope ++ "/" ++
        encodeJsonPointerToken profileId ++ "/token"
      let existing := readJsonPointerU st.payload id
      let writeStep : Except String (Json × Nat) :=
        if !isDeepStrictEqualOpt existing (some (Json.str token)) then
          (setJsonPointer st.payload id (Json.str token)).map fun p =>
            (p, st.counters.secretsWritten + 1)
        else .ok (st.payload, st.counters.secretsWritten)
      writeStep.map fun r =>
        (objDelete (objSet profileValue "tokenRef" (secretRefJson id)) "token",
          { payload := r.1,
            counters := { st.counters with
              secretsWritten := r.2,
              authProfileRefs := st.counters.authProfileRefs + 1 },
            migratedValues := addMigratedValue st.migratedValues token },
          true)
  else .ok (profileValue, st, false)

/-- `migrateAuthStoreSecrets` of plan.ts over one parsed store. -/
def migrateAuthStoreSecrets (scope : String) (store : Json) (st : WalkState) :
    Except String (Json × WalkState × Bool) :=
  let profiles := objLookup store "profiles"
  if !isRecordOpt profiles then .ok (store, st, false)
  else
    let profileFields :=
      match profiles with
      | some (.obj fs) => fs
      | _ => []
    ((profileFields.foldlM
        (fun (acc : List (String × Json) × WalkState × Bool) e =>
          (migrateAuthProfileEntry scope e.1 e.2 acc.2.1).map
            fun r => (acc.1 ++ [(e.1, r.1)], r.2.1, acc.2.2 || r.2.2))
        ([], st, false)).map
      fun r => (objSet store "profiles" (Json.obj r.1), r.2.1, r.2.2))

/-- The observable state of one discovered auth-store file: absent, raw
contents that `JSON.parse` rejects, or the parsed document. -/
inductive AuthFile where
  | missing
  | unparsable (raw : String)
  | parsed (v : Json)
deriving Repr

/-- One iteration of the auth-store loop of `buildMigrationPlan` (plan.ts
lines 453-481): skip absent files, files whose contents fail to parse and
files that parse to a non-object; migrate the rest and record a change
entry only when the migration changed the store. -/
def authStoreLoopStep (scopeOf : String → String)
    (acc : List (String × Json) × WalkState) (e : String × AuthFile) :
    Except String (List (String × Json) × WalkState) :=
  match e.2 with
  | .missing => .ok acc
  | .unparsable _ => .ok acc
  | .parsed v =>
    if !isRecord v then .ok acc
    else
      (migrateAuthStoreSecrets (scopeOf e.1) v acc.2).map
        fun r => if r.2.2 then (acc.1 ++ [(e.1, r.1)], r.2.1) else (acc.1, r.2.1)

/-- The auth-store loop of `buildMigrationPlan`.  The filesystem read and
`JSON.parse` are modelled by the `AuthFile` inputs; the scope computation
(`deriveAuthStoreScope`, which hashes paths) is an opaque parameter. -/
def authStoreLoop (scopeOf : String → String)
    (stores : List (String × AuthFile)) (st : WalkState) :
    Except String (List (String × Json) × WalkState) :=
  stores.foldlM (authStoreLoopStep scopeOf) ([], st)

/-- The slice of the validated config the migration walk reads. -/
structure ConfigModel where
  providers : Option (List (String × Json))
  skillEntries : Option (List (String × Json))
  googlechat : Option Json
deriving Repr

structure WalkOutcome where
  providers : Option (List (String × Json))
  skillEntries : Option (List (String × Json))
  googlechat : Option Json
  authStoreChanges : List (String × Json)
  payload : Json
  counters : MigrationCounters
  migratedValues : List String
deriving Repr

/-- The per-site walk of `buildMigrationPlan` (plan.ts lines 423-482):
providers, then skill entries, then Google Chat, then the auth stores,
threading payload, counters and the migrated-values set exactly as the
source does.  The Google Chat step is invoked without the migrated-values
set, as in the source. -/
def runMigrationWalk (cfg : ConfigModel) (stores : List (String × AuthFile))
    (scopeOf : String → String) (previousPayload : Json) :
    Except String WalkOutcome := do
  let st0 : WalkState := ⟨previousPayload, initialCounters, []⟩
  let r1 ← migrateModelProviderSecrets cfg.providers st0
  let r2 ← migrateSkillEntrySecrets cfg.skillEntries r1.2
  let r3 ← migrateGoogleChatSecrets cfg.googlechat r2.2.payload r2.2.counters
  let st3 : WalkState := ⟨r3.2.1, r3.2.2, r2.2.migratedValues⟩
  let r4 ← authStoreLoop scopeOf stores st3
  return {
    providers := r1.1,
    skillEntries := r2.1,
    googlechat := r3.1,
    authStoreChanges := r4.1,
    payload := r4.2.payload,
    counters := { r4.2.counters with authStoresChanged := r4.1.length },
    migratedValues := r4.2.migratedValues }

def DEFAULT_SOPS_TIMEOUT_MS : Nat := 5000

/-- `normalizePositiveInt` of `shared.ts`.  Modelled from the spec:
clamp to a positive integer, with a fallback. -/
def normalizePositiveInt (value : Option Int) (fallback : Nat) : Nat :=
  match value with
  | some n => if n > 0 then n.toNat else fallback
  | none => fallback

/-- JavaScript truthiness of the values that reach the guards below. -/
def isTruthy : Json → Bool
  | .null => false
  | .bool b => b
  | .num n => !(n == 0)
  | .str s => !strIsEmpty s
  | .arr _ => true
  | .obj _ => true

/-- Optional chaining `a?.b?.c`. -/
def jsonPath (v : Json) (ks : List String) : Option Json :=
  ks.foldl (fun acc k => acc.bind (fun x => objLookup x k)) (some v)

def jsonNumOpt : Option Json → Option Int
  | some (.num n) => some n
  | _ => none

structure FileSourceResolution where
  path : String
  timeoutMs : Nat
  hadConfiguredSource : Bool
deriving Repr, DecidableEq

/-- `resolveFileSource` of plan.ts.  `resolveUserPath` (home-directory
expansion) is modelled as the identity and the state-dir-dependent default
path (`resolveDefaultSecretsConfigPath`) is an input, since no claim
depends on path rendering. -/
def resolveFileSource (config : Json) (defaultSecretsConfigPath : String) :
    FileSourceResolution :=
  let source := jsonPath config ["secrets", "sources", "file"]
  if (match source with | some s => isTruthy s | none => false) &&
      strictEqString ((source.getD .null) |> fun s => objLookup s "type") "sops" &&
      isNonEmptyStringOpt (objLookup (source.getD .null) "path") then
    { path := asString (objLookup (source.getD .null) "path"),
      timeoutMs := normalizePositiveInt (jsonNumOpt (objLookup (source.getD .null) "timeoutMs"))
        DEFAULT_SOPS_TIMEOUT_MS,
      hadConfiguredSource := true }
  else
    { path := defaultSecretsConfigPath,
      timeoutMs := DEFAULT_SOPS_TIMEOUT_MS,
      hadConfiguredSource := false }

/-- `value ??= x` on an object field: assign only when the field is
absent or null. -/
def ensureObjField (v : Json) (k : String) : Json :=
  match objLookup v k with
  | none => objSet v k (.obj [])
  | some .null => objSet v k (.obj [])
  | some _ => v

/-- The `secrets.sources.file` value synthesized by `buildMigrationPlan`.
-/
def sopsFileSourceJson (path : String) : Json :=
  .obj [("type", .str "sops"), ("path", .str path), ("timeoutMs", .num 5000)]

/-- Lines 484-493 of plan.ts: synthesize `secrets.sources.file` in
`nextConfig` when at least one secret was written to the payload and no
file source was configured. -/
def synthesizeFileSourceStep (nextConfig : Json) (secretsWritten : Nat)
    (hadConfiguredSource : Bool) (defaultConfigPath : String) : Json :=
  if secretsWritten > 0 && !hadConfiguredSource then
    let c1 := ensureObjField nextConfig "secrets"
    let secretsVal := (objLookup c1 "secrets").getD .null
    let s1 := ensureObjField secretsVal "sources"
    let sourcesVal := (objLookup s1 "sources").getD .null
    objSet c1 "secrets"
      (objSet s1 "sources" (objSet sourcesVal "file" (sopsFileSourceJson defaultConfigPath)))
  else nextConfig

def occursInChars (needle : List Char) : List Char → Bool
  | [] => needle.isEmpty
  | c :: rest => startsWithChars needle (c :: rest) || occursInChars needle rest

/-- Substring containment, `String.prototype.includes`. -/
def strOccursIn (needle haystack : String) : Bool :=
  occursInChars needle.toList haystack.toList

/-- The error value visible to the catch blocks of sops.ts: an `Error`
(or `ErrnoException`) with its `code` and `message`. -/
structure JsError where
  code : Option String
  message : String
deriving Repr, DecidableEq

/-- `isTimeoutError` of sops.ts. -/
def isTimeoutError (message : String) : Bool :=
  strOccursIn "timed out" (strToLower message)

/-- `toSopsError` of sops.ts. -/
def toSopsError (err : JsError) (missingBinaryMessage operationLabel : String) :
    String :=
  if err.code == some "ENOENT" then missingBinaryMessage
  else operationLabel ++ ": " ++ err.message

/-- The catch-block normalization shared by `decryptSopsJsonFile` and
`encryptSopsJsonFile` (sops.ts): the timeout check first, then
`toSopsError` with the ENOENT case and the generic wrap. -/
def sopsFailureMessage (op path : String) (timeoutMs : Nat)
    (missingBinaryMessage : String) (err : JsError) : String :=
  if isTimeoutError err.message then
    "sops " ++ op ++ " timed out after " ++ toString timeoutMs ++ "ms for " ++ path ++ "."
  else toSopsError err missingBinaryMessage ("sops " ++ op ++ " failed for " ++ path)

/-- `decryptSopsJsonFile` of sops.ts.  The subprocess run and the JSON
parse of its stdout are collapsed into the `exec` input (`.ok` carries
the parsed stdout; `.error` any exception raised inside the try block). -/
def decryptSopsJsonFile (path : String) (timeoutMs : Option Int)
    (missingBinaryMessage : String) (exec : Except JsError Json) :
    Except String Json :=
  let t := normalizePositiveInt timeoutMs DEFAULT_SOPS_TIMEOUT_MS
  match exec with
  | .ok parsed => .ok parsed
  | .error err => .error (sopsFailureMessage "decrypt" path t missingBinaryMessage err)

/-- `encryptSopsJsonFile` of sops.ts, its error normalization: the
tempfile dance is not observable through any claim. -/
def encryptSopsJsonFile (path : String) (timeoutMs : Option Int)
    (missingBinaryMessage : String) (exec : Except JsError Unit) :
    Except String Unit :=
  let t := normalizePositiveInt timeoutMs DEFAULT_SOPS_TIMEOUT_MS
  match exec with
  | .ok _ => .ok ()
  | .error err => .error (sopsFailureMessage "encrypt" path t missingBinaryMessage err)

/-- The timeout message exactly as claim C5 states it. -/
def claimedSopsTimeoutMessage (op path : String) (timeoutMs : Nat) : String :=
  "sops " ++ op ++ " timed out after " ++ toString timeoutMs ++ "ms for " ++ path

/-- The non-object payload message shared by plan.ts and runtime.ts. -/
def sopsNonObjectMessage : String :=
  "sops decrypt failed: decrypted payload is not a JSON object"

/-- `decryptSopsJson` of plan.ts: an absent secrets file decrypts to an
empty object, a decrypted non-object document is rejected.  The
`decryptSopsJsonFile` call is the `decrypted` input. -/
def decryptSopsJson (fileExists : Bool) (decrypted : Except String Json) :
    Except String Json :=
  if !fileExists then .ok (.obj [])
  else
    match decrypted with
    | .error e => .error e
    | .ok parsed =>
      if !isRecord parsed then .error sopsNonObjectMessage
      else .ok parsed

/-- JavaScript `String(x)` for the scalar values the type-error message
can name (array rendering approximated; no claim reaches it). -/
def jsDisplayString : Option Json → String
  | none => "undefined"
  | some .null => "null"
  | some (.bool b) => if b then "true" else "false"
  | some (.num n) => toString n
  | some (.str s) => s
  | some (.arr _) => ""
  | some (.obj _) => "[object Object]"

/-- `resolveFileSecretPayload` of runtime.ts.  The promise cache is
collapsed: the one decrypt this resolution pass performs is the
`decrypted` input. -/
def resolveFileSecretPayload (fileSource : Option Json)
    (decrypted : Except String Json) : Except String Json :=
  if !(match fileSource with | some fs => isTruthy fs | none => false) then
    .error "Secret reference source \"file\" is not configured. Configure secrets.sources.file first."
  else
    let fs := fileSource.getD .null
    if !strictEqString (objLookup fs "type") "sops" then
      .error ("Unsupported secrets.sources.file.type \"" ++
        jsDisplayString (objLookup fs "type") ++ "\".")
    else
      match decrypted with
      | .error e => .error e
      | .ok payload =>
        if !isRecord payload then .error sopsNonObjectMessage
        else .ok payload

structure SecretRefM where
  source : String
  id : String
deriving Repr, DecidableEq

/-- `resolveSecretRefValue` of runtime.ts.  The caller-supplied env and
the process env are functions to `Option String` (`none` models an unset
variable); the file decrypt is the `decrypted` input.  The message of the
pointer miss (`onMissing: "throw"` inside `json-pointer.ts`) is modelled,
its exact text being outside the given sources. -/
def resolveSecretRefValue (ref : SecretRefM)
    (callerEnv : Option (String → Option String))
    (processEnv : String → Option String)
    (fileSource : Option Json) (decrypted : Except String Json) :
    Except String Json :=
  let id := jsTrim ref.id
  if strIsEmpty id then .error "Secret reference id is empty."
  else if ref.source == "env" then
    let envValue : Option String :=
      match callerEnv with
      | some env =>
        match env id with
        | some v => some v
        | none => processEnv id
      | none => processEnv id
    if !(match envValue with | some v => !strIsEmpty (jsTrim v) | none => false) then
      .error ("Environment variable \"" ++ id ++ "\" is missing or empty.")
    else .ok (.str (envValue.getD ""))
  else if ref.source == "file" then
    match resolveFileSecretPayload fileSource decrypted with
    | .error e => .error e
    | .ok payload =>
      match readJsonPointerU payload id with
      | some v => .ok v
      | none => .error ("JSON pointer not found: " ++ id)
  else .error ("Unsupported secret source \"" ++ ref.source ++ "\".")

/-- The filesystem visible to `applyMigrationPlan`, as path-content
pairs. -/
abbrev FileSys := List (String × String)

def fsGet (fs : FileSys) (p : String) : Option String :=
  match fs with
  | [] => none
  | (q, c) :: rest => if q = p then some c else fsGet rest p

def fsSet (fs : FileSys) (p : String) (c : String) : FileSys :=
  match fs with
  | [] => [(p, c)]
  | (q, c2) :: rest => if q = p then (q, c) :: rest else (q, c2) :: fsSet rest p c

def fsDelete (fs : FileSys) (p : String) : FileSys :=
  fs.filter (fun e => e.1 != p)

/-- One manifest entry: `saved = none` models `existed = false`. -/
structure BackupEntry where
  path : String
  saved : Option String
deriving Repr, DecidableEq

/-- `createBackupManifest` of backup.ts.  Modelled from the spec: record
every backup target with its pre-write contents, or its absence. -/
def createBackupManifest (targets : List String) (fs : FileSys) :
    List BackupEntry :=
  targets.map fun p => ⟨p, fsGet fs p⟩

/-- `restoreFromManifest` of backup.ts.  Modelled from the spec: copy the
backup back over every target that existed, delete every target that did
not. -/
def restoreFromManifest (manifest : List BackupEntry) (fs : FileSys) : FileSys :=
  manifest.foldl (fun acc e =>
    match e.saved with
    | some c => fsSet acc e.path c
    | none => fsDelete acc e.path) fs

/-- The slice of a `MigrationPlan` that `applyMigrationPlan` consumes.
Each planned write carries the bytes it would put on disk (payload
serialization plus encryption are collapsed into `payloadContent`). -/
structure ApplyPlan where
  changed : Bool
  payloadChanged : Bool
  configChanged : Bool
  secretsFilePath : String
  payloadContent : String
  configPath : String
  configContent : String
  authStoreChanges : List (String × String)
  envChange : Option (String × String)
  backupTargets : List String
  counters : MigrationCounters
  stateDir : String
deriving Repr, DecidableEq

/-- Fault injection for the write phase: each planned write either
succeeds or throws with the given message. -/
structure WriteOutcomes where
  encryptErr : Option String
  configErr : Option String
  authErrs : List (Option String)
  envErr : Option String
deriving Repr, DecidableEq

def paddedErrs (l : List (Option String)) (n : Nat) : List (Option String) :=
  l ++ List.replicate n none

/-- The write phase of `applyMigrationPlan` (migrate.ts): the encrypted
payload first when changed, then the config file, then each auth store,
then the env file, stopping at the first exception.  Returns the
filesystem reached and the exception, if any. -/
def runMigrationWrites (plan : ApplyPlan) (o : WriteOutcomes) (fs : FileSys) :
    FileSys × Option String :=
  let step1 : FileSys × Option String :=
    if plan.payloadChanged then
      match o.encryptErr with
      | some e => (fs, some e)
      | none => (fsSet fs plan.secretsFilePath plan.payloadContent, none)
    else (fs, none)
  match step1.2 with
  | some e => (step1.1, some e)
  | none =>
    let step2 : FileSys × Option String :=
      if plan.configChanged then
        match o.configErr with
        | some e => (step1.1, some e)
        | none => (fsSet step1.1 plan.configPath plan.configContent, none)
      else (step1.1, none)
    match step2.2 with
    | some e => (step2.1, some e)
    | none =>
      let step3 :=
        (plan.authStoreChanges.zip
            (paddedErrs o.authErrs plan.authStoreChanges.length)).foldl
          (fun (acc : FileSys × Option String) e =>
            match acc.2 with
            | some _ => acc
            | none =>
              match e.2 with
              | some err => (acc.1, some err)
              | none => (fsSet acc.1 e.1.1 e.1.2, none))
          (step2.1, none)
      match step3.2 with
      | some e => (step3.1, some e)
      | none =>
        match plan.envChange with
        | some ec =>
          match o.envErr with
          | some e => (step3.1, some e)
          | none => (fsSet step3.1 ec.1 ec.2, none)
        | none => (step3.1, none)

structure ApplyResult where
  mode : String
  changed : Bool
  backupId : Option String
  backupDir : Option String
  secretsFilePath : String
  counters : MigrationCounters
  changedFiles : List String
deriving Repr, DecidableEq

/-- The outcome of one `applyMigrationPlan` call, together with the side
effects the claims observe: whether a backup id was allocated and the
backup directory plus manifest created (`backupCreated`), whether
`restoreFromManifest` ran (`restored`), and whether `pruneOldBackups` ran
(`pruned`). -/
structure ApplyOutcome where
  result : Except String ApplyResult
  fs : FileSys
  backupCreated : Bool
  restored : Bool
  pruned : Bool
deriving Repr

/-- `applyMigrationPlan` of migrate.ts.  The unique backup id that
`resolveUniqueBackupId` would allocate is the `backupId` input; its
allocation and the manifest creation only happen past the `plan.changed`
guard and are reported through `backupCreated`. -/
def applyMigrationPlan (plan : ApplyPlan) (backupId : String)
    (o : WriteOutcomes) (fs : FileSys) : ApplyOutcome :=
  if !plan.changed then
    let result : ApplyResult :=
      ⟨"write", false, none, none, plan.secretsFilePath, plan.counters, []⟩
    ⟨.ok result, fs, false, false, false⟩
  else
    let manifest := createBackupManifest plan.backupTargets fs
    let writes := runMigrationWrites plan o fs
    match writes.2 with
    | some e =>
      ⟨.error ("Secrets migration failed and was rolled back from backup " ++
          backupId ++ ": " ++ e),
        restoreFromManifest manifest writes.1, true, true, false⟩
    | none =>
      let result : ApplyResult :=
        ⟨"write", true, some backupId,
          some (plan.stateDir ++ "/backups/secrets-migrate/" ++ backupId),
          plan.secretsFilePath, plan.counters, plan.backupTargets⟩
      ⟨.ok result, writes.1, true, false, true⟩

/-- JavaScript `Set` insertion as used for `backupTargets`. -/
def addUniquePath (l : List String) (p : String) : List String :=
  if l.contains p then l else l ++ [p]

/-- Lines 514-526 of plan.ts: the backup-target set in insertion order:
the config file when it changed, the secrets file when the payload
changed, every changed auth store, and the env file when scrubbed. -/
def buildBackupTargets (configChanged : Bool) (configPath : String)
    (payloadChanged : Bool) (secretsFilePath : String)
    (authStoreChanges : List (String × Json))
    (envChange : Option (String × String)) : List String :=
  let t1 := if configChanged then addUniquePath [] configPath else []
  let t2 := if payloadChanged then addUniquePath t1 secretsFilePath else t1
  let t3 := authStoreChanges.foldl (fun acc c => addUniquePath acc c.1) t2
  match envChange with
  | some ec => addUniquePath t3 ec.1
  | none => t3

theorem scrubStep_eq_keep (mv ak : List String) (acc : List String × Nat) (l : String) :
    scrubStep mv ak acc l =
      if amendedKeepLine mv ak l then (acc.1 ++ [l], acc.2) else (acc.1, acc.2 + 1) := by
  unfold scrubStep amendedKeepLine
  cases h : matchEnvLine l with
  | none => simp
  | some kv =>
    obtain ⟨k, v⟩ := kv
    cases hk : ak.contains k <;> cases hv : mv.contains (parseEnvValue v) <;>
      simp only [hk, hv, Bool.not_true, Bool.not_false, Bool.true_and, Bool.false_and,
        Bool.and_true, Bool.and_false, if_true, if_false, ite_true, ite_false,
        Bool.false_eq_true, Bool.true_eq_false]

theorem scrubStep_foldl (mv ak : List String) :
    ∀ (lines : List String) (acc : List String × Nat),
      lines.foldl (scrubStep mv ak) acc =
        (acc.1 ++ lines.filter (amendedKeepLine mv ak),
          acc.2 + lines.countP (fun l => !amendedKeepLine mv ak l)) := by
  intro lines
  induction lines with
  | nil => intro acc; simp
  | cons l ls ih =>
    intro acc
    rw [List.foldl_cons, scrubStep_eq_keep]
    by_cases hl : amendedKeepLine mv ak l
    · rw [if_pos hl, ih]
      simp [List.filter_cons, List.countP_cons, hl]
    · rw [if_neg hl, ih]
      simp only [List.filter_cons, List.countP_cons, hl]
      simp
      omega

/-- Claim C1 is false on the code, in two ways.  First, `parseEnvValue`
trims before stripping quotes, while the claimed reference strips and then
trims: for the line `A="x" ` (trailing blank) with migrated value `x` and
allow-listed key `A`, the code drops the line but the claimed reference
keeps it.  Second, the code returns the raw text unchanged whenever the
migrated-value set or the allow-list is empty, while the claimed reference
still normalizes an empty input to a newline. -/
theorem c1_counterexample :
    scrubEnvRaw "A=\"x\" \n" ["x"] ["A"] ≠ claimedScrubEnvRaw "A=\"x\" \n" ["x"] ["A"] ∧
    scrubEnvRaw "" [] ["A"] ≠ claimedScrubEnvRaw "" [] ["A"] := by
  constructor <;> decide

/-- Claim C1 as amended: `scrubEnvRaw` agrees everywhere with the
reference definition once the reference parses a value by trimming first
and then stripping one matched pair of surrounding quotes (without
re-trimming), and once it returns the input unchanged with zero removals
whenever the migrated-value set or the allow-list of env keys is empty;
the split, the per-line keep-or-drop rule, the removal count and the
trailing-newline rule are otherwise exactly as the claim states them. -/
theorem c1_theorem (raw : String) (mv ak : List String) :
    scrubEnvRaw raw mv ak = amendedScrubEnvRaw raw mv ak := by
  unfold scrubEnvRaw amendedScrubEnvRaw
  by_cases hg : mv.isEmpty || ak.isEmpty
  · rw [if_pos hg, if_pos hg]
  · rw [if_neg hg, if_neg hg]
    simp only [scrubStep_foldl]
    simp

theorem contains_addMigratedValue (l : List String) (v : String) :
    (addMigratedValue l v).contains v = true := by
  unfold addMigratedValue
  cases h : l.contains v with
  | true => simpa [h] using h
  | false => simp [h]

theorem except_map_ok {α β : Type} (f : α → β) (w : Except String α) (r : β)
    (h : w.map f = .ok r) : ∃ a, w = .ok a ∧ r = f a := by
  cases w with
  | error e => simp [Except.map] at h
  | ok a =>
    refine ⟨a, rfl, ?_⟩
    simpa [Except.map, eq_comm] using h

/-- Claim C2 is false on the code: with a config whose only secret is the
Google Chat `serviceAccount` plaintext string `sa-plain`, the walk moves
the value into the payload (`secretsWritten = 1` and the pointer
`/channels/googlechat/serviceAccount` holds it) yet the migrated-values
set handed to env scrubbing stays empty —
`migrateGoogleChatServiceAccount` never receives that set. -/
theorem c2_counterexample :
    (runMigrationWalk ⟨none, none, some (Json.obj [("serviceAccount", Json.str "sa-plain")])⟩
        [] (fun _ => "main") (Json.obj [])).map
      (fun out => (out.counters.secretsWritten,
        readJsonPointerU out.payload "/channels/googlechat/serviceAccount",
        out.migratedValues)) =
      .ok (1, some (Json.str "sa-plain"), []) := rfl

/-- Claim C2 as amended: the plaintext values migrated from provider
`apiKey`, skill-entry `apiKey` and auth-profile `key`/`token` sites are
recorded (trimmed) in the migrated-values set, but Google Chat
`serviceAccount` values are not — a walk whose only sites are Google Chat
ones produces an empty set, so allow-listed `.env` lines holding those
values are not eligible for removal. -/
theorem c2_theorem :
    (∀ pid prov st s r,
        objLookup prov "apiKey" = some (Json.str s) →
        strIsEmpty (jsTrim s) = false →
        migrateProviderEntry pid prov st = .ok r →
        r.2.migratedValues.contains (jsTrim s) = true) ∧
    (∀ skillKey entry st s r,
        objLookup entry "apiKey" = some (Json.str s) →
        strIsEmpty (jsTrim s) = false →
        migrateSkillEntry skillKey entry st = .ok r →
        r.2.migratedValues.contains (jsTrim s) = true) ∧
    (∀ scope pid pv st s r,
        strictEqString (objLookup pv "type") "api_key" = true →
        isSecretRefOpt (objLookup pv "keyRef") = false →
        objLookup pv "key" = some (Json.str s) →
        strIsEmpty (jsTrim s) = false →
        migrateAuthProfileEntry scope pid pv st = .ok r →
        r.2.1.migratedValues.contains (jsTrim s) = true) ∧
    (∀ scope pid pv st s r,
        strictEqString (objLookup pv "type") "token" = true →
        isSecretRefOpt (objLookup pv "tokenRef") = false →
        objLookup pv "token" = some (Json.str s) →
        strIsEmpty (jsTrim s) = false →
        migrateAuthProfileEntry scope pid pv st = .ok r →
        r.2.1.migratedValues.contains (jsTrim s) = true) ∧
    (∀ gc payload scopeOf out,
        runMigrationWalk ⟨none, none, gc⟩ [] scopeOf payload = .ok out →
        out.migratedValues = []) := by
  refine ⟨?_, ?_, ?_, ?_, ?_⟩
  · intro pid prov st s r h1 h2 h3
    unfold migrateProviderEntry at h3
    rw [h1] at h3
    simp only [isSecretRefOpt, isSecretRef, isNonEmptyStringOpt, isNonEmptyString, h2,
      asString, Bool.not_false, if_false, ite_false, Bool.false_eq_true, if_true,
      Bool.not_true, Bool.true_eq_false, ite_true] at h3
    obtain ⟨a, -, hr⟩ := except_map_ok _ _ _ h3
    rw [hr]
    simpa using contains_addMigratedValue st.migratedValues (jsTrim s)
  · intro skillKey entry st s r h1 h2 h3
    have hrec : isRecord entry = true := by
      cases entry <;> simp [objLookup] at h1 <;> rfl
    unfold migrateSkillEntry at h3
    rw [h1] at h3
    simp only [hrec, isSecretRefOpt, isSecretRef, isNonEmptyStringOpt, isNonEmptyString, h2,
      asString, Bool.not_false, Bool.not_true, Bool.false_or, Bool.true_or, if_false,
      ite_false, Bool.false_eq_true, Bool.true_eq_false, ite_true] at h3
    obtain ⟨a, -, hr⟩ := except_map_ok _ _ _ h3
    rw [hr]
    simpa using contains_addMigratedValue st.migratedValues (jsTrim s)
  · intro scope pid pv st s r h0 h1 h2 hne h3
    unfold migrateAuthProfileEntry at h3
    have hrec : isRecord pv = true := by
      cases pv <;> simp [objLookup] at h2 <;> rfl
    rw [h2] at h3
    simp only [hrec, h0, h1, isNonEmptyStringOpt, isNonEmptyString, hne, asString,
      Bool.not_false, Bool.not_true, if_false, ite_false, if_true, ite_true,
      Bool.false_eq_true, Bool.true_eq_false] at h3
    obtain ⟨a, -, hr⟩ := except_map_ok _ _ _ h3
    rw [hr]
    simpa using contains_addMigratedValue st.migratedValues (jsTrim s)
  · intro scope pid pv st s r h0 h1 h2 hne h3
    have hrec : isRecord pv = true := by
      cases pv <;> simp [objLookup] at h2 <;> rfl
    have hnotkey : strictEqString (objLookup pv "type") "api_key" = false := by
      cases hk : objLookup pv "type" with
      | none => rfl
      | some t =>
        rw [hk] at h0
        cases t <;> simp [strictEqString] at h0 ⊢
        rw [h0]
        decide
    unfold migrateAuthProfileEntry at h3
    rw [h2] at h3
    simp only [hrec, hnotkey, h0, h1, isNonEmptyStringOpt, isNonEmptyString, hne, asString,
      Bool.not_false, Bool.not_true, if_false, ite_false, if_true, ite_true,
      Bool.false_eq_true, Bool.true_eq_false] at h3
    obtain ⟨a, -, hr⟩ := except_map_ok _ _ _ h3
    rw [hr]
    simpa using contains_addMigratedValue st.migratedValues (jsTrim s)
  · intro gc payload scopeOf out h
    unfold runMigrationWalk at h
    simp only [migrateModelProviderSecrets, migrateSkillEntrySecrets, authStoreLoop,
      List.foldlM, bind, Except.bind, pure, Except.pure] at h
    cases hgc : migrateGoogleChatSecrets gc payload initialCounters with
    | error e => rw [hgc] at h; cases h
    | ok r3 =>
      rw [hgc] at h
      simp only [Except.ok.injEq] at h
      rw [← h]

/-- Witness for claim C2's amended theorem: a provider secret `v` lands in
the migrated-values set, and a Google-Chat-only walk produces an empty
set. -/
theorem c2_witness :
    ((Json.obj [("apiKey", Json.obj [("source", Json.str "file"),
          ("id", Json.str "/providers/p/apiKey")])],
        (⟨Json.obj [("providers", Json.obj [("p", Json.obj [("apiKey", Json.str "v")])])],
          ⟨1, 0, 0, 1, 0, 0⟩, ["v"]⟩ : WalkState)) :
      Json × WalkState).2.migratedValues.contains (jsTrim "v") = true ∧
    ((⟨none, none,
        some (Json.obj [("serviceAccountRef", Json.obj [("source", Json.str "file"),
          ("id", Json.str "/channels/googlechat/serviceAccount")])]),
        [],
        Json.obj [("channels", Json.obj [("googlechat",
          Json.obj [("serviceAccount", Json.str "sa-plain")])])],
        ⟨1, 0, 0, 1, 0, 0⟩, []⟩ : WalkOutcome)).migratedValues = ([] : List String) :=
  ⟨c2_theorem.1 "p" (Json.obj [("apiKey", Json.str "v")])
      ⟨Json.obj [], initialCounters, []⟩ "v" _ rfl rfl rfl,
    c2_theorem.2.2.2.2 (some (Json.obj [("serviceAccount", Json.str "sa-plain")]))
      (Json.obj []) (fun _ => "main") _ rfl⟩

/-- Claim C3, confirmed: at every migrated site the payload pointer is
written and `secretsWritten` incremented exactly when the stored value is
not structurally equal to the (trimmed, or for Google Chat objects
cloned) migrated value; when equal, neither the write nor the increment
happens, while the rewrite of the config or auth store to a
`{ source: "file", id }` reference — and the `configRefs` or
`authProfileRefs` increment — happens in both cases.  The Google Chat
site is stated once for plaintext strings and once for non-empty
objects. -/
theorem c3_theorem :
    (∀ pid prov st s,
      objLookup prov "apiKey" = some (Json.str s) →
      strIsEmpty (jsTrim s) = false →
      (isDeepStrictEqualOpt
          (readJsonPointerU st.payload
            ("/providers/" ++ encodeJsonPointerToken pid ++ "/apiKey"))
          (some (Json.str (jsTrim s))) = true →
        migrateProviderEntry pid prov st =
          .ok (objSet prov "apiKey"
              (secretRefJson ("/providers/" ++ encodeJsonPointerToken pid ++ "/apiKey")),
            ⟨st.payload,
              { st.counters with configRefs := st.counters.configRefs + 1 },
              addMigratedValue st.migratedValues (jsTrim s)⟩)) ∧
      (∀ p2,
        isDeepStrictEqualOpt
            (readJsonPointerU st.payload
              ("/providers/" ++ encodeJsonPointerToken pid ++ "/apiKey"))
            (some (Json.str (jsTrim s))) = false →
        setJsonPointer st.payload
            ("/providers/" ++ encodeJsonPointerToken pid ++ "/apiKey")
            (Json.str (jsTrim s)) = .ok p2 →
        migrateProviderEntry pid prov st =
          .ok (objSet prov "apiKey"
              (secretRefJson ("/providers/" ++ encodeJsonPointerToken pid ++ "/apiKey")),
            ⟨p2,
              { st.counters with
                secretsWritten := st.counters.secretsWritten + 1,
                configRefs := st.counters.configRefs + 1 },
              addMigratedValue st.migratedValues (jsTrim s)⟩))) ∧
    (∀ skillKey entry st s,
      objLookup entry "apiKey" = some (Json.str s) →
      strIsEmpty (jsTrim s) = false →
      (isDeepStrictEqualOpt
          (readJsonPointerU st.payload
            ("/skills/entries/" ++ encodeJsonPointerToken skillKey ++ "/apiKey"))
          (some (Json.str (jsTrim s))) = true →
        migrateSkillEntry skillKey entry st =
          .ok (objSet entry "apiKey"
              (secretRefJson ("/skills/entries/" ++ encodeJsonPointerToken skillKey ++ "/apiKey")),
            ⟨st.payload,
              { st.counters with configRefs := st.counters.configRefs + 1 },
              addMigratedValue st.migratedValues (jsTrim s)⟩)) ∧
      (∀ p2,
        isDeepStrictEqualOpt
            (readJsonPointerU st.payload
              ("/skills/entries/" ++ encodeJsonPointerToken skillKey ++ "/apiKey"))
            (some (Json.str (jsTrim s))) = false →
        setJsonPointer st.payload
            ("/skills/entries/" ++ encodeJsonPointerToken skillKey ++ "/apiKey")
            (Json.str (jsTrim s)) = .ok p2 →
        migrateSkillEntry skillKey entry st =
          .ok (objSet entry "apiKey"
              (secretRefJson ("/skills/entries/" ++ encodeJsonPointerToken skillKey ++ "/apiKey")),
            ⟨p2,
              { st.counters with
                secretsWritten := st.counters.secretsWritten + 1,
                configRefs := st.counters.configRefs + 1 },
              addMigratedValue st.migratedValues (jsTrim s)⟩))) ∧
    (∀ account pointerId payload counters s,
      isSecretRefOpt (objLookup account "serviceAccountRef") = false →
      objLookup account "serviceAccount" = some (Json.str s) →
      strIsEmpty (jsTrim s) = false →
      (isDeepStrictEqualOpt
          (readJsonPointerU payload (pointerId ++ "/serviceAccount"))
          (some (Json.str (jsTrim s))) = true →
        migrateGoogleChatServiceAccount account pointerId payload counters =
          .ok (objDelete (objSet account "serviceAccountRef"
                (secretRefJson (pointerId ++ "/serviceAccount"))) "serviceAccount",
            payload,
            { counters with configRefs := counters.configRefs + 1 })) ∧
      (∀ p2,
        isDeepStrictEqualOpt
            (readJsonPointerU payload (pointerId ++ "/serviceAccount"))
            (some (Json.str (jsTrim s))) = false →
        setJsonPointer payload (pointerId ++ "/serviceAccount")
            (Json.str (jsTrim s)) = .ok p2 →
        migrateGoogleChatServiceAccount account pointerId payload counters =
          .ok (objDelete (objSet account "serviceAccountRef"
                (secretRefJson (pointerId ++ "/serviceAccount"))) "serviceAccount",
            p2,
            { counters with
              secretsWritten := counters.secretsWritten + 1,
              configRefs := counters.configRefs + 1 }))) ∧
    (∀ account pointerId payload counters fields,
      isSecretRefOpt (objLookup account "serviceAccountRef") = false →
      objLookup account "serviceAccount" = some (Json.obj fields) →
      isSecretRef (Json.obj fields) = false →
      fields.isEmpty = false →
      (isDeepStrictEqualOpt
          (readJsonPointerU payload (pointerId ++ "/serviceAccount"))
          (some (Json.obj fields)) = true →
        migrateGoogleChatServiceAccount account pointerId payload counters =
          .ok (objDelete (objSet account "serviceAccountRef"
                (secretRefJson (pointerId ++ "/serviceAccount"))) "serviceAccount",
            payload,
            { counters with configRefs := counters.configRefs + 1 })) ∧
      (∀ p2,
        isDeepStrictEqualOpt
            (readJsonPointerU payload (pointerId ++ "/serviceAccount"))
            (some (Json.obj fields)) = false →
        setJsonPointer payload (pointerId ++ "/serviceAccount")
            (Json.obj fields) = .ok p2 →
        migrateGoogleChatServiceAccount account pointerId payload counters =
          .ok (objDelete (objSet account "serviceAccountRef"
                (secretRefJson (pointerId ++ "/serviceAccount"))) "serviceAccount",
            p2,
            { counters with
              secretsWritten := counters.secretsWritten + 1,
              configRefs := counters.configRefs + 1 }))) ∧
    (∀ scope pid pv st s,
      strictEqString (objLookup pv "type") "api_key" = true →
      isSecretRefOpt (objLookup pv "keyRef") = false →
      objLookup pv "key" = some (Json.str s) →
      strIsEmpty (jsTrim s) = false →
      (isDeepStrictEqualOpt
          (readJsonPointerU st.payload
            ("/auth-profiles/" ++ encodeJsonPointerToken scope ++ "/" ++
              encodeJsonPointerToken pid ++ "/key"))
          (some (Json.str (jsTrim s))) = true →
        migrateAuthProfileEntry scope pid pv st =
          .ok (objDelete (objSet pv "keyRef"
                (secretRefJson ("/auth-profiles/" ++ encodeJsonPointerToken scope ++ "/" ++
                  encodeJsonPointerToken pid ++ "/key"))) "key",
            ⟨st.payload,
              { st.counters with authProfileRefs := st.counters.authProfileRefs + 1 },
              addMigratedValue st.migratedValues (jsTrim s)⟩,
            true)) ∧
      (∀ p2,
        isDeepStrictEqualOpt
            (readJsonPointerU st.payload
              ("/auth-profiles/" ++ encodeJsonPointerToken scope ++ "/" ++
                encodeJsonPointerToken pid ++ "/key"))
            (some (Json.str (jsTrim s))) = false →
        setJsonPointer st.payload
            ("/auth-profiles/" ++ encodeJsonPointerToken scope ++ "/" ++
              encodeJsonPointerToken pid ++ "/key")
            (Json.str (jsTrim s)) = .ok p2 →
        migrateAuthProfileEntry scope pid pv st =
          .ok (objDelete (objSet pv "keyRef"
                (secretRefJson ("/auth-profiles/" ++ encodeJsonPointerToken scope ++ "/" ++
                  encodeJsonPointerToken pid ++ "/key"))) "key",
            ⟨p2,
              { st.counters with
                secretsWritten := st.counters.secretsWritten + 1,
                authProfileRefs := st.counters.authProfileRefs + 1 },
              addMigratedValue st.migratedValues (jsTrim s)⟩,
            true))) ∧
    (∀ scope pid pv st s,
      strictEqString (objLookup pv "type") "token" = true →
      isSecretRefOpt (objLookup pv "tokenRef") = false →
      objLookup pv "token" = some (Json.str s) →
      strIsEmpty (jsTrim s) = false →
      (isDeepStrictEqualOpt
          (readJsonPointerU st.payload
            ("/auth-profiles/" ++ encodeJsonPointerToken scope ++ "/" ++
              encodeJsonPointerToken pid ++ "/token"))
          (some (Json.str (jsTrim s))) = true →
        migrateAuthProfileEntry scope pid pv st =
          .ok (objDelete (objSet pv "tokenRef"
                (secretRefJson ("/auth-profiles/" ++ encodeJsonPointerToken scope ++ "/" ++
                  encodeJsonPointerToken pid ++ "/token"))) "token",
            ⟨st.payload,
              { st.counters with authProfileRefs := st.counters.authProfileRefs + 1 },
              addMigratedValue st.migratedValues (jsTrim s)⟩,
            true)) ∧
      (∀ p2,
        isDeepStrictEqualOpt
            (readJsonPointerU st.payload
              ("/auth-profiles/" ++ encodeJsonPointerToken scope ++ "/" ++
                encodeJsonPointerToken pid ++ "/token"))
            (some (Json.str (jsTrim s))) = false →
        setJsonPointer st.payload
            ("/auth-profiles/" ++ encodeJsonPointerToken scope ++ "/" ++
              encodeJsonPointerToken pid ++ "/token")
            (Json.str (jsTrim s)) = .ok p2 →
        migrateAuthProfileEntry scope pid pv st =
          .ok (objDelete (objSet pv "tokenRef"
                (secretRefJson ("/auth-profiles/" ++ encodeJsonPointerToken scope ++ "/" ++
                  encodeJsonPointerToken pid ++ "/token"))) "token",
            ⟨p2,
              { st.counters with
                secretsWritten := st.counters.secretsWritten + 1,
                authProfileRefs := st.counters.authProfileRefs + 1 },
              addMigratedValue st.migratedValues (jsTrim s)⟩,
            true))) := by
  refine ⟨?_, ?_, ?_, ?_, ?_, ?_⟩
  · intro pid prov st s h1 h2
    constructor
    · intro heq
      unfold migrateProviderEntry
      rw [h1]
      simp only [isSecretRefOpt, isSecretRef, isNonEmptyStringOpt, isNonEmptyString, h2,
        asString, heq, Bool.not_false, Bool.not_true, if_false, ite_false, if_true,
        ite_true, Bool.false_eq_true, Bool.true_eq_false, Except.map]
    · intro p2 hne hset
      unfold migrateProviderEntry
      rw [h1]
      simp only [isSecretRefOpt, isSecretRef, isNonEmptyStringOpt, isNonEmptyString, h2,
        asString, hne, Bool.not_false, Bool.not_true, if_false, ite_false, if_true,
        ite_true, Bool.false_eq_true, Bool.true_eq_false]
      rw [hset]
      simp only [Except.map]
  · intro skillKey entry st s h1 h2
    have hrec : isRecord entry = true := by
      cases entry <;> simp [objLookup] at h1 <;> rfl
    constructor
    · intro heq
      unfold migrateSkillEntry
      rw [h1]
      simp only [hrec, isSecretRefOpt, isSecretRef, isNonEmptyStringOpt, isNonEmptyString,
        h2, asString, heq, Bool.not_false, Bool.not_true, Bool.false_or, Bool.true_or,
        if_false, ite_false, if_true, ite_true, Bool.false_eq_true, Bool.true_eq_false,
        Except.map]
    · intro p2 hne hset
      unfold migrateSkillEntry
      rw [h1]
      simp only [hrec, isSecretRefOpt, isSecretRef, isNonEmptyStringOpt, isNonEmptyString,
        h2, asString, hne, Bool.not_false, Bool.not_true, Bool.false_or, Bool.true_or,
        if_false, ite_false, if_true, ite_true, Bool.false_eq_true, Bool.true_eq_false]
      rw [hset]
      simp only [Except.map]
  · intro account pointerId payload counters s h0 h1 h2
    constructor
    · intro heq
      unfold migrateGoogleChatServiceAccount
      rw [h1, h0]
      simp only [isSecretRefOpt, isSecretRef, isNonEmptyStringOpt, isNonEmptyString,
        h2, Option.getD_some, asString, heq, Bool.not_false, Bool.not_true, Bool.false_or,
        Bool.or_false, Bool.and_false, Bool.false_and, Bool.and_true, Bool.true_and,
        if_false, ite_false, if_true, ite_true, Bool.false_eq_true, Bool.true_eq_false,
        Except.map]
    · intro p2 hne hset
      unfold migrateGoogleChatServiceAccount
      rw [h1, h0]
      simp only [isSecretRefOpt, isSecretRef, isNonEmptyStringOpt, isNonEmptyString,
        h2, Option.getD_some, asString, hne, Bool.not_false, Bool.not_true, Bool.false_or,
        Bool.or_false, Bool.and_false, Bool.false_and, Bool.and_true, Bool.true_and,
        if_false, ite_false, if_true, ite_true, Bool.false_eq_true, Bool.true_eq_false]
      rw [hset]
      simp only [Except.map]
  · intro account pointerId payload counters fields h0 h1 h2 h3
    constructor
    · intro heq
      unfold migrateGoogleChatServiceAccount
      rw [h1, h0]
      simp only [isSecretRefOpt, h2, isNonEmptyStringOpt, isNonEmptyString, h3,
        Option.getD_some, asString, heq, Bool.not_false, Bool.not_true, Bool.false_or,
        Bool.or_false, Bool.and_false, Bool.false_and, Bool.and_true, Bool.true_and,
        if_false, ite_false, if_true, ite_true, Bool.false_eq_true, Bool.true_eq_false,
        Except.map]
    · intro p2 hne hset
      unfold migrateGoogleChatServiceAccount
      rw [h1, h0]
      simp only [isSecretRefOpt, h2, isNonEmptyStringOpt, isNonEmptyString, h3,
        Option.getD_some, asString, hne, Bool.not_false, Bool.not_true, Bool.false_or,
        Bool.or_false, Bool.and_false, Bool.and_true, Bool.true_and, Bool.false_and,
        if_false, ite_false, if_true, ite_true, Bool.false_eq_true, Bool.true_eq_false]
      rw [hset]
      simp only [Except.map]
  · intro scope pid pv st s h0 h1 h2 hne2
    have hrec : isRecord pv = true := by
      cases pv <;> simp [objLookup] at h2 <;> rfl
    constructor
    · intro heq
      unfold migrateAuthProfileEntry
      rw [h2]
      simp only [hrec, h0, h1, isNonEmptyStringOpt, isNonEmptyString, hne2, asString,
        heq, Bool.not_false, Bool.not_true, if_false, ite_false, if_true, ite_true,
        Bool.false_eq_true, Bool.true_eq_false, Except.map]
    · intro p2 hne hset
      unfold migrateAuthProfileEntry
      rw [h2]
      simp only [hrec, h0, h1, isNonEmptyStringOpt, isNonEmptyString, hne2, asString,
        hne, Bool.not_false, Bool.not_true, if_false, ite_false, if_true, ite_true,
        Bool.false_eq_true, Bool.true_eq_false]
      rw [hset]
      simp only [Except.map]
  · intro scope pid pv st s h0 h1 h2 hne2
    have hrec : isRecord pv = true := by
      cases pv <;> simp [objLookup] at h2 <;> rfl
    have hnotkey : strictEqString (objLookup pv "type") "api_key" = false := by
      cases hk : objLookup pv "type" with
      | none => rfl
      | some t =>
        rw [hk] at h0
        cases t <;> simp [strictEqString] at h0 ⊢
        rw [h0]
        decide
    constructor
    · intro heq
      unfold migrateAuthProfileEntry
      rw [h2]
      simp only [hrec, hnotkey, h0, h1, isNonEmptyStringOpt, isNonEmptyString, hne2,
        asString, heq, Bool.not_false, Bool.not_true, if_false, ite_false, if_true,
        ite_true, Bool.false_eq_true, Bool.true_eq_false, Except.map]
    · intro p2 hne hset
      unfold migrateAuthProfileEntry
      rw [h2]
      simp only [hrec, hnotkey, h0, h1, isNonEmptyStringOpt, isNonEmptyString, hne2,
        asString, hne, Bool.not_false, Bool.not_true, if_false, ite_false, if_true,
        ite_true, Bool.false_eq_true, Bool.true_eq_false]
      rw [hset]
      simp only [Except.map]

/-- Witness for claim C3 at the provider site: with the payload already
holding `v` the equal branch rewrites the config without touching the
payload or `secretsWritten`; with an empty payload the value is written
and the counter incremented. -/
theorem c3_witness :
    isDeepStrictEqualOpt
        (readJsonPointerU
          (Json.obj [("providers", Json.obj [("p", Json.obj [("apiKey", Json.str "v")])])])
          "/providers/p/apiKey")
        (some (Json.str (jsTrim "v"))) = true ∧
    migrateProviderEntry "p" (Json.obj [("apiKey", Json.str "v")])
        ⟨Json.obj [("providers", Json.obj [("p", Json.obj [("apiKey", Json.str "v")])])],
          initialCounters, []⟩ =
      .ok (Json.obj [("apiKey", Json.obj [("source", Json.str "file"),
            ("id", Json.str "/providers/p/apiKey")])],
        ⟨Json.obj [("providers", Json.obj [("p", Json.obj [("apiKey", Json.str "v")])])],
          ⟨1, 0, 0, 0, 0, 0⟩, ["v"]⟩) ∧
    migrateProviderEntry "p" (Json.obj [("apiKey", Json.str "v")])
        ⟨Json.obj [], initialCounters, []⟩ =
      .ok (Json.obj [("apiKey", Json.obj [("source", Json.str "file"),
            ("id", Json.str "/providers/p/apiKey")])],
        ⟨Json.obj [("providers", Json.obj [("p", Json.obj [("apiKey", Json.str "v")])])],
          ⟨1, 0, 0, 1, 0, 0⟩, ["v"]⟩) :=
  ⟨rfl,
    (c3_theorem.1 "p" (Json.obj [("apiKey", Json.str "v")])
      ⟨Json.obj [("providers", Json.obj [("p", Json.obj [("apiKey", Json.str "v")])])],
        initialCounters, []⟩ "v" rfl rfl).1 rfl,
    (c3_theorem.1 "p" (Json.obj [("apiKey", Json.str "v")])
      ⟨Json.obj [], initialCounters, []⟩ "v" rfl rfl).2 _ rfl rfl⟩

theorem assocLookup_assocSet_self (fs : List (String × Json)) (k : String) (x : Json) :
    assocLookup (assocSet fs k x) k = some x := by
  induction fs with
  | nil => simp [assocSet, assocLookup]
  | cons e rest ih =>
    obtain ⟨k2, v⟩ := e
    by_cases h : k2 = k
    · simp [assocSet, assocLookup, h]
    · simp [assocSet, assocLookup, h, ih]

/-- Claim C4, confirmed: on a validated config (root an object, the
`secrets` and `secrets.sources` fields each absent, null or an object),
the plan synthesizes `secrets.sources.file = { type: "sops", path:
<defaultPath>, timeoutMs: 5000 }` in `nextConfig` precisely when at least
one secret was written to the payload and `resolveFileSource` found no
configured sops file source; otherwise that config field is left exactly
as in the input. -/
theorem c4_theorem (cfg : Json) (w : Nat) (d : String)
    (hroot : isRecord cfg = true)
    (hsecrets : objLookup cfg "secrets" = none ∨ objLookup cfg "secrets" = some Json.null ∨
      ∃ sfs, objLookup cfg "secrets" = some (Json.obj sfs))
    (hsources : ∀ sfs, objLookup cfg "secrets" = some (Json.obj sfs) →
      assocLookup sfs "sources" = none ∨ assocLookup sfs "sources" = some Json.null ∨
      ∃ gfs, assocLookup sfs "sources" = some (Json.obj gfs)) :
    jsonPath (synthesizeFileSourceStep cfg w (resolveFileSource cfg d).hadConfiguredSource d)
        ["secrets", "sources", "file"] =
      if w > 0 ∧ (resolveFileSource cfg d).hadConfiguredSource = false then
        some (sopsFileSourceJson d)
      else jsonPath cfg ["secrets", "sources", "file"] := by
  by_cases hc : w > 0 ∧ (resolveFileSource cfg d).hadConfiguredSource = false
  · rw [if_pos hc]
    obtain ⟨hw, hhad⟩ := hc
    unfold synthesizeFileSourceStep
    rw [hhad]
    simp only [Bool.not_false, Bool.and_true, decide_eq_true hw, if_true, ite_true]
    cases cfg with
    | obj rootFields =>
      rcases hsecrets with hs | hs | ⟨sfs, hs⟩
      · simp only [objLookup] at hs
        simp [ensureObjField, jsonPath, objLookup, objSet, hs, assocLookup_assocSet_self,
          assocSet, assocLookup]
      · simp only [objLookup] at hs
        simp [ensureObjField, jsonPath, objLookup, objSet, hs, assocLookup_assocSet_self,
          assocSet, assocLookup]
      · have hsrc3 := hsources sfs hs
        simp only [objLookup] at hs
        rcases hsrc3 with hsrc | hsrc | ⟨gfs, hsrc⟩
        · simp [ensureObjField, jsonPath, objLookup, objSet, hs, hsrc,
            assocLookup_assocSet_self, assocSet, assocLookup]
        · simp [ensureObjField, jsonPath, objLookup, objSet, hs, hsrc,
            assocLookup_assocSet_self, assocSet, assocLookup]
        · simp [ensureObjField, jsonPath, objLookup, objSet, hs, hsrc,
            assocLookup_assocSet_self, assocSet, assocLookup]
    | null => simp [isRecord] at hroot
    | bool b => simp [isRecord] at hroot
    | num n => simp [isRecord] at hroot
    | str s => simp [isRecord] at hroot
    | arr xs => simp [isRecord] at hroot
  · rw [if_neg hc]
    unfold synthesizeFileSourceStep
    have hcond : (decide (w > 0) && !(resolveFileSource cfg d).hadConfiguredSource) = false := by
      cases hh : (resolveFileSource cfg d).hadConfiguredSource
      · have hw : ¬ w > 0 := fun hw => hc ⟨hw, hh⟩
        simp [hw]
      · simp
    rw [hcond]
    simp

/-- Witness for claim C4: an empty config with one payload write gets the
default sops file source synthesized. -/
theorem c4_witness :
    isRecord (Json.obj []) = true ∧
    (resolveFileSource (Json.obj []) "~/.openclaw/secrets.enc.json").hadConfiguredSource
      = false ∧
    jsonPath (synthesizeFileSourceStep (Json.obj []) 1
        (resolveFileSource (Json.obj []) "~/.openclaw/secrets.enc.json").hadConfiguredSource
        "~/.openclaw/secrets.enc.json") ["secrets", "sources", "file"] =
      (if 1 > 0 ∧ (resolveFileSource (Json.obj [])
            "~/.openclaw/secrets.enc.json").hadConfiguredSource = false then
        some (sopsFileSourceJson "~/.openclaw/secrets.enc.json")
      else jsonPath (Json.obj []) ["secrets", "sources", "file"]) := by
  refine ⟨rfl, rfl,
    c4_theorem (Json.obj []) 1 "~/.openclaw/secrets.enc.json" rfl (Or.inl rfl) ?_⟩
  intro sfs h
  simp [objLookup, assocLookup] at h

/-- Claim C5 is false on the code in one detail: both driver operations
append a trailing full stop to the timeout message, so the message is
exactly the claimed `"sops <op> timed out after <N>ms for <path>"`
followed by `"."` — and therefore not the claimed string. -/
theorem c5_counterexample :
    decryptSopsJsonFile "/tmp/s.json" (some 250) "missing sops"
        (.error ⟨none, "Command timed out after 250ms"⟩) =
      .error (claimedSopsTimeoutMessage "decrypt" "/tmp/s.json" 250 ++ ".") ∧
    claimedSopsTimeoutMessage "decrypt" "/tmp/s.json" 250 ++ "." ≠
      claimedSopsTimeoutMessage "decrypt" "/tmp/s.json" 250 := by
  constructor
  · rfl
  · decide

/-- Claim C5 as amended: for both operations, a failure whose message
contains "timed out" (case-insensitively — checked before the ENOENT
case) is reported as `"sops <op> timed out after <N>ms for <path>."`,
with `<N>` the normalized timeout and a trailing full stop; an ENOENT
failure otherwise is reported as the caller-supplied
`missingBinaryMessage`; every other failure as
`"sops <op> failed for <path>: <underlying>"`, the cause's message
preserved verbatim. -/
theorem c5_theorem :
    (∀ path t mbm err, isTimeoutError (JsError.message err) = true →
      decryptSopsJsonFile path t mbm (.error err) =
        .error ("sops decrypt timed out after " ++
          toString (normalizePositiveInt t DEFAULT_SOPS_TIMEOUT_MS) ++ "ms for " ++
          path ++ ".")) ∧
    (∀ path t mbm err, isTimeoutError (JsError.message err) = false →
      JsError.code err = some "ENOENT" →
      decryptSopsJsonFile path t mbm (.error err) = .error mbm) ∧
    (∀ path t mbm err, isTimeoutError (JsError.message err) = false →
      (JsError.code err == some "ENOENT") = false →
      decryptSopsJsonFile path t mbm (.error err) =
        .error ("sops decrypt failed for " ++ path ++ ": " ++ JsError.message err)) ∧
    (∀ path t mbm err, isTimeoutError (JsError.message err) = true →
      encryptSopsJsonFile path t mbm (.error err) =
        .error ("sops encrypt timed out after " ++
          toString (normalizePositiveInt t DEFAULT_SOPS_TIMEOUT_MS) ++ "ms for " ++
          path ++ ".")) ∧
    (∀ path t mbm err, isTimeoutError (JsError.message err) = false →
      JsError.code err = some "ENOENT" →
      encryptSopsJsonFile path t mbm (.error err) = .error mbm) ∧
    (∀ path t mbm err, isTimeoutError (JsError.message err) = false →
      (JsError.code err == some "ENOENT") = false →
      encryptSopsJsonFile path t mbm (.error err) =
        .error ("sops encrypt failed for " ++ path ++ ": " ++ JsError.message err)) := by
  refine ⟨?_, ?_, ?_, ?_, ?_, ?_⟩
  · intro path t mbm err h1
    unfold decryptSopsJsonFile sopsFailureMessage
    simp [h1]
  · intro path t mbm err h1 h2
    unfold decryptSopsJsonFile sopsFailureMessage toSopsError
    simp [h1, h2]
  · intro path t mbm err h1 h2
    unfold decryptSopsJsonFile sopsFailureMessage toSopsError
    simp [h1, h2]
  · intro path t mbm err h1
    unfold encryptSopsJsonFile sopsFailureMessage
    simp [h1]
  · intro path t mbm err h1 h2
    unfold encryptSopsJsonFile sopsFailureMessage toSopsError
    simp [h1, h2]
  · intro path t mbm err h1 h2
    unfold encryptSopsJsonFile sopsFailureMessage toSopsError
    simp [h1, h2]

/-- Witness for claim C5's amended theorem: one timeout, one ENOENT and
one generic failure, normalized at concrete inputs. -/
theorem c5_witness :
    isTimeoutError "Command timed out after 250ms" = true ∧
    decryptSopsJsonFile "/x" (some 250) "nobin"
        (.error ⟨none, "Command timed out after 250ms"⟩) =
      .error ("sops decrypt timed out after " ++
        toString (normalizePositiveInt (some 250) DEFAULT_SOPS_TIMEOUT_MS) ++ "ms for " ++
        "/x" ++ ".") ∧
    encryptSopsJsonFile "/x" none "nobin" (.error ⟨some "ENOENT", "spawn sops ENOENT"⟩) =
      .error "nobin" ∧
    decryptSopsJsonFile "/x" none "nobin" (.error ⟨none, "exit status 1"⟩) =
      .error ("sops decrypt failed for " ++ "/x" ++ ": " ++ "exit status 1") :=
  ⟨rfl,
    c5_theorem.1 "/x" (some 250) "nobin" ⟨none, "Command timed out after 250ms"⟩ rfl,
    c5_theorem.2.2.2.2.1 "/x" none "nobin" ⟨some "ENOENT", "spawn sops ENOENT"⟩ rfl rfl,
    c5_theorem.2.2.1 "/x" none "nobin" ⟨none, "exit status 1"⟩ rfl rfl⟩

/-- Claim C6, confirmed: both the migration planner's payload load
(`decryptSopsJson`) and the runtime file-source resolution
(`resolveFileSecretPayload`) reject a decrypted non-object document with
exactly `"sops decrypt failed: decrypted payload is not a JSON object"`;
on an object they proceed, the runtime resolution continuing to the JSON
pointer lookup where a missing pointer raises an error and a present one
yields its value. -/
theorem c6_theorem :
    (∀ d : Json, isRecord d = false →
      decryptSopsJson true (.ok d) = .error sopsNonObjectMessage) ∧
    (∀ d : Json, isRecord d = true →
      decryptSopsJson true (.ok d) = .ok d) ∧
    (∀ fsrc d, isTruthy fsrc = true →
      strictEqString (objLookup fsrc "type") "sops" = true →
      isRecord d = false →
      resolveFileSecretPayload (some fsrc) (.ok d) = .error sopsNonObjectMessage) ∧
    (∀ fsrc d (ref : SecretRefM) procEnv, ref.source = "file" →
      strIsEmpty (jsTrim ref.id) = false →
      isTruthy fsrc = true →
      strictEqString (objLookup fsrc "type") "sops" = true →
      isRecord d = true →
      resolveSecretRefValue ref none procEnv (some fsrc) (.ok d) =
        (match readJsonPointerU d (jsTrim ref.id) with
          | some v => .ok v
          | none => .error ("JSON pointer not found: " ++ jsTrim ref.id))) := by
  refine ⟨?_, ?_, ?_, ?_⟩
  · intro d h
    unfold decryptSopsJson
    simp [h]
  · intro d h
    unfold decryptSopsJson
    simp [h]
  · intro fsrc d h1 h2 h3
    unfold resolveFileSecretPayload
    simp [h1, h2, h3]
  · intro fsrc d ref procEnv hsrc hid h1 h2 h3
    obtain ⟨src, id⟩ := ref
    simp only at hsrc hid
    subst hsrc
    unfold resolveSecretRefValue resolveFileSecretPayload
    simp only [hid, h1, h2, h3, Bool.not_true, Bool.not_false, if_false, ite_false,
      if_true, ite_true, Bool.false_eq_true, Bool.true_eq_false,
      show (("file" : String) == "env") = false from rfl,
      show (("file" : String) == "file") = true from rfl]
    cases hr : readJsonPointerU d (jsTrim id) <;> simp [hr, h1, h2, h3]

/-- Witness for claim C6: an array payload is rejected by both loaders
with the exact message; an object payload resolves a present pointer. -/
theorem c6_witness :
    isRecord (Json.arr [Json.str "x"]) = false ∧
    decryptSopsJson true (.ok (Json.arr [Json.str "x"])) = .error sopsNonObjectMessage ∧
    resolveFileSecretPayload (some (sopsFileSourceJson "~/.openclaw/secrets.enc.json"))
        (.ok (Json.arr [Json.str "x"])) = .error sopsNonObjectMessage ∧
    resolveSecretRefValue ⟨"file", "/providers/openai/apiKey"⟩ none (fun _ => none)
        (some (sopsFileSourceJson "~/.openclaw/secrets.enc.json"))
        (.ok (Json.obj [("providers", Json.obj [("openai",
          Json.obj [("apiKey", Json.str "sk-from-sops")])])])) =
      (match readJsonPointerU
          (Json.obj [("providers", Json.obj [("openai",
            Json.obj [("apiKey", Json.str "sk-from-sops")])])])
          (jsTrim "/providers/openai/apiKey") with
        | some v => .ok v
        | none => .error ("JSON pointer not found: " ++ jsTrim "/providers/openai/apiKey")) :=
  ⟨rfl,
    c6_theorem.1 (Json.arr [Json.str "x"]) rfl,
    c6_theorem.2.2.1 (sopsFileSourceJson "~/.openclaw/secrets.enc.json")
      (Json.arr [Json.str "x"]) rfl rfl rfl,
    c6_theorem.2.2.2 (sopsFileSourceJson "~/.openclaw/secrets.enc.json")
      (Json.obj [("providers", Json.obj [("openai",
        Json.obj [("apiKey", Json.str "sk-from-sops")])])])
      ⟨"file", "/providers/openai/apiKey"⟩ (fun _ => none) rfl rfl rfl rfl rfl⟩

/-- Claim C7, confirmed: when the plan reports no change,
`applyMigrationPlan` returns `{ mode: "write", changed: false }` carrying
the plan's counters and secrets file path with an empty changed-files
list, and performs no side effect: the filesystem is untouched, no backup
id is allocated, no backup directory or manifest is created, no restore
and no prune runs. -/
theorem c7_theorem (plan : ApplyPlan) (backupId : String) (o : WriteOutcomes)
    (fs : FileSys) (h : plan.changed = false) :
    applyMigrationPlan plan backupId o fs =
      ⟨.ok ⟨"write", false, none, none, plan.secretsFilePath, plan.counters, []⟩,
        fs, false, false, false⟩ := by
  unfold applyMigrationPlan
  simp [h]

/-- Witness for claim C7 at a concrete unchanged plan. -/
theorem c7_witness :
    (⟨false, false, false, "/s/secrets.enc.json", "P", "/s/openclaw.json", "C", [],
        none, [], initialCounters, "/s"⟩ : ApplyPlan).changed = false ∧
    applyMigrationPlan
        ⟨false, false, false, "/s/secrets.enc.json", "P", "/s/openclaw.json", "C", [],
          none, [], initialCounters, "/s"⟩
        "20260222T000000Z" ⟨none, none, [], none⟩ [("/s/openclaw.json", "C1")] =
      ⟨.ok ⟨"write", false, none, none, "/s/secrets.enc.json", initialCounters, []⟩,
        [("/s/openclaw.json", "C1")], false, false, false⟩ :=
  ⟨rfl, c7_theorem _ "20260222T000000Z" ⟨none, none, [], none⟩ _ rfl⟩

/-- Claim C8, confirmed: when any write of the apply phase throws, the
manifest recorded before the writes is replayed through
`restoreFromManifest` over the filesystem reached, the returned error is
exactly `"Secrets migration failed and was rolled back from backup <id>:
<cause>"`, and no pruning happens; when every write succeeds, no restore
runs and old backups are pruned. -/
theorem c8_theorem (plan : ApplyPlan) (backupId : String) (o : WriteOutcomes)
    (fs : FileSys) (hch : plan.changed = true) :
    (∀ e, (runMigrationWrites plan o fs).2 = some e →
      applyMigrationPlan plan backupId o fs =
        ⟨.error ("Secrets migration failed and was rolled back from backup " ++
            backupId ++ ": " ++ e),
          restoreFromManifest (createBackupManifest plan.backupTargets fs)
            (runMigrationWrites plan o fs).1,
          true, true, false⟩) ∧
    ((runMigrationWrites plan o fs).2 = none →
      applyMigrationPlan plan backupId o fs =
        ⟨.ok ⟨"write", true, some backupId,
            some (plan.stateDir ++ "/backups/secrets-migrate/" ++ backupId),
            plan.secretsFilePath, plan.counters, plan.backupTargets⟩,
          (runMigrationWrites plan o fs).1, true, false, true⟩) := by
  constructor
  · intro e he
    unfold applyMigrationPlan
    simp [hch, he]
  · intro he
    unfold applyMigrationPlan
    simp [hch, he]

/-- Witness for claim C8: a failing config write is rolled back with the
exact wrapped message; an all-success run prunes instead. -/
theorem c8_witness :
    (⟨true, true, true, "/s/secrets.enc.json", "P2", "/s/openclaw.json", "C2",
        [("/s/auth.json", "A2")], some ("/s/.env", "E2"),
        ["/s/openclaw.json", "/s/secrets.enc.json", "/s/auth.json", "/s/.env"],
        initialCounters, "/s"⟩ : ApplyPlan).changed = true ∧
    (runMigrationWrites
        ⟨true, true, true, "/s/secrets.enc.json", "P2", "/s/openclaw.json", "C2",
          [("/s/auth.json", "A2")], some ("/s/.env", "E2"),
          ["/s/openclaw.json", "/s/secrets.enc.json", "/s/auth.json", "/s/.env"],
          initialCounters, "/s"⟩
        ⟨none, some "boom", [], none⟩
        [("/s/openclaw.json", "C1"), ("/s/auth.json", "A1"), ("/s/.env", "E1")]).2 =
      some "boom" ∧
    applyMigrationPlan
        ⟨true, true, true, "/s/secrets.enc.json", "P2", "/s/openclaw.json", "C2",
          [("/s/auth.json", "A2")], some ("/s/.env", "E2"),
          ["/s/openclaw.json", "/s/secrets.enc.json", "/s/auth.json", "/s/.env"],
          initialCounters, "/s"⟩
        "20260222T000000Z" ⟨none, some "boom", [], none⟩
        [("/s/openclaw.json", "C1"), ("/s/auth.json", "A1"), ("/s/.env", "E1")] =
      ⟨.error ("Secrets migration failed and was rolled back from backup " ++
          "20260222T000000Z" ++ ": " ++ "boom"),
        restoreFromManifest
          (createBackupManifest
            ["/s/openclaw.json", "/s/secrets.enc.json", "/s/auth.json", "/s/.env"]
            [("/s/openclaw.json", "C1"), ("/s/auth.json", "A1"), ("/s/.env", "E1")])
          (runMigrationWrites
            ⟨true, true, true, "/s/secrets.enc.json", "P2", "/s/openclaw.json", "C2",
              [("/s/auth.json", "A2")], some ("/s/.env", "E2"),
              ["/s/openclaw.json", "/s/secrets.enc.json", "/s/auth.json", "/s/.env"],
              initialCounters, "/s"⟩
            ⟨none, some "boom", [], none⟩
            [("/s/openclaw.json", "C1"), ("/s/auth.json", "A1"), ("/s/.env", "E1")]).1,
        true, true, false⟩ ∧
    (applyMigrationPlan
        ⟨true, true, true, "/s/secrets.enc.json", "P2", "/s/openclaw.json", "C2",
          [("/s/auth.json", "A2")], some ("/s/.env", "E2"),
          ["/s/openclaw.json", "/s/secrets.enc.json", "/s/auth.json", "/s/.env"],
          initialCounters, "/s"⟩
        "20260222T000000Z" ⟨none, none, [], none⟩
        [("/s/openclaw.json", "C1"), ("/s/auth.json", "A1"), ("/s/.env", "E1")]).pruned =
      true :=
  ⟨rfl, rfl,
    (c8_theorem _ "20260222T000000Z" ⟨none, some "boom", [], none⟩
        [("/s/openclaw.json", "C1"), ("/s/auth.json", "A1"), ("/s/.env", "E1")] rfl).1
      "boom" rfl,
    by
      rw [(c8_theorem
          ⟨true, true, true, "/s/secrets.enc.json", "P2", "/s/openclaw.json", "C2",
            [("/s/auth.json", "A2")], some ("/s/.env", "E2"),
            ["/s/openclaw.json", "/s/secrets.enc.json", "/s/auth.json", "/s/.env"],
            initialCounters, "/s"⟩
          "20260222T000000Z" ⟨none, none, [], none⟩
          [("/s/openclaw.json", "C1"), ("/s/auth.json", "A1"), ("/s/.env", "E1")] rfl).2
        rfl]⟩

/-- Claim C9, confirmed: an env-source reference falls back to the
process env only when the caller-supplied env maps the trimmed id to
`undefined`; a caller-env entry holding the empty string makes resolution
fail with `Environment variable "<id>" is missing or empty.` no matter
what the process env holds, and an id that trims to the empty string
fails with `Secret reference id is empty.` before any lookup. -/
theorem c9_theorem :
    (∀ (ref : SecretRefM) cEnv procEnv fsrc dec, strIsEmpty (jsTrim ref.id) = true →
      resolveSecretRefValue ref cEnv procEnv fsrc dec =
        .error "Secret reference id is empty.") ∧
    (∀ (ref : SecretRefM) cEnv procEnv fsrc dec, ref.source = "env" →
      strIsEmpty (jsTrim ref.id) = false →
      cEnv (jsTrim ref.id) = some "" →
      resolveSecretRefValue ref (some cEnv) procEnv fsrc dec =
        .error ("Environment variable \"" ++ jsTrim ref.id ++ "\" is missing or empty.")) ∧
    (∀ (ref : SecretRefM) cEnv procEnv fsrc dec, ref.source = "env" →
      strIsEmpty (jsTrim ref.id) = false →
      cEnv (jsTrim ref.id) = none →
      resolveSecretRefValue ref (some cEnv) procEnv fsrc dec =
        resolveSecretRefValue ref none procEnv fsrc dec) := by
  refine ⟨?_, ?_, ?_⟩
  · intro ref cEnv procEnv fsrc dec h
    obtain ⟨src, id⟩ := ref
    simp only at h
    unfold resolveSecretRefValue
    simp [h]
  · intro ref cEnv procEnv fsrc dec hsrc hid henv
    obtain ⟨src, id⟩ := ref
    simp only at hsrc hid henv
    subst hsrc
    unfold resolveSecretRefValue
    simp [hid, henv, show strIsEmpty (jsTrim "") = true from rfl]
  · intro ref cEnv procEnv fsrc dec hsrc hid henv
    obtain ⟨src, id⟩ := ref
    simp only at hsrc hid henv
    subst hsrc
    unfold resolveSecretRefValue
    simp [hid, henv]

/-- Witness for claim C9: a blank id fails first; a caller env holding
the empty string defeats a non-empty process env; an unset caller-env key
falls back to the process env. -/
theorem c9_witness :
    strIsEmpty (jsTrim "  ") = true ∧
    resolveSecretRefValue ⟨"env", "  "⟩ none (fun _ => some "procval") none
        (.ok (Json.obj [])) = .error "Secret reference id is empty." ∧
    resolveSecretRefValue ⟨"env", "OPENAI_API_KEY"⟩ (some (fun _ => some ""))
        (fun _ => some "procval") none (.ok (Json.obj [])) =
      .error ("Environment variable \"" ++ jsTrim "OPENAI_API_KEY" ++
        "\" is missing or empty.") ∧
    resolveSecretRefValue ⟨"env", "OPENAI_API_KEY"⟩ (some (fun _ => none))
        (fun _ => some "procval") none (.ok (Json.obj [])) =
      resolveSecretRefValue ⟨"env", "OPENAI_API_KEY"⟩ none
        (fun _ => some "procval") none (.ok (Json.obj [])) :=
  ⟨rfl,
    c9_theorem.1 ⟨"env", "  "⟩ none (fun _ => some "procval") none (.ok (Json.obj [])) rfl,
    c9_theorem.2.1 ⟨"env", "OPENAI_API_KEY"⟩ (fun _ => some "")
      (fun _ => some "procval") none (.ok (Json.obj [])) rfl rfl rfl,
    c9_theorem.2.2 ⟨"env", "OPENAI_API_KEY"⟩ (fun _ => none)
      (fun _ => some "procval") none (.ok (Json.obj [])) rfl rfl rfl⟩

theorem foldlM_authStep_skip (scopeOf : String → String) (p : String) (f : AuthFile)
    (hf : ∀ acc, authStoreLoopStep scopeOf acc (p, f) = .ok acc) :
    ∀ (pre post : List (String × AuthFile)) (acc : List (String × Json) × WalkState),
      (pre ++ (p, f) :: post).foldlM (authStoreLoopStep scopeOf) acc =
        (pre ++ post).foldlM (authStoreLoopStep scopeOf) acc := by
  intro pre
  induction pre with
  | nil =>
    intro post acc
    simp only [List.nil_append, List.foldlM_cons, hf]
    rfl
  | cons a rest ih =>
    intro post acc
    simp only [List.cons_append, List.foldlM_cons]
    cases h : authStoreLoopStep scopeOf acc a with
    | error e => rfl
    | ok b => exact ih post b

theorem mem_addUniquePath (l : List String) (q p : String)
    (h : p ∈ addUniquePath l q) : p ∈ l ∨ p = q := by
  unfold addUniquePath at h
  by_cases hc : l.contains q = true
  · rw [if_pos hc] at h
    exact Or.inl h
  · rw [if_neg hc] at h
    rcases List.mem_append.mp h with h2 | h2
    · exact Or.inl h2
    · exact Or.inr (List.mem_singleton.mp h2)

theorem mem_foldl_addUniquePath (changes : List (String × Json)) :
    ∀ (init : List String) (p : String),
      p ∈ changes.foldl (fun acc c => addUniquePath acc c.1) init →
      p ∈ init ∨ ∃ c ∈ changes, p = c.1 := by
  induction changes with
  | nil =>
    intro init p h
    exact Or.inl h
  | cons c rest ih =>
    intro init p h
    rcases ih _ p h with h2 | h2
    · rcases mem_addUniquePath _ _ _ h2 with h3 | h3
      · exact Or.inl h3
      · exact Or.inr ⟨c, by simp, h3⟩
    · obtain ⟨c2, hc2, hp⟩ := h2
      exact Or.inr ⟨c2, by simp [hc2], hp⟩

/-- Claim C10, confirmed: a discovered auth-store file that is absent,
fails JSON parsing, or parses to a non-object is skipped silently — the
loop computes exactly what it computes without that store, so it
contributes no change entry, no counter increment and no payload or
migrated-values update, and planning does not fail because of it; and a
path appears among the backup targets only as the config path, the
secrets file path, a changed store's path, or the scrubbed env file's
path. -/
theorem c10_theorem :
    (∀ scopeOf pre post p raw st,
      authStoreLoop scopeOf (pre ++ (p, AuthFile.unparsable raw) :: post) st =
        authStoreLoop scopeOf (pre ++ post) st) ∧
    (∀ scopeOf pre post p st,
      authStoreLoop scopeOf (pre ++ (p, AuthFile.missing) :: post) st =
        authStoreLoop scopeOf (pre ++ post) st) ∧
    (∀ scopeOf pre post p v st, isRecord v = false →
      authStoreLoop scopeOf (pre ++ (p, AuthFile.parsed v) :: post) st =
        authStoreLoop scopeOf (pre ++ post) st) ∧
    (∀ configChanged configPath payloadChanged sfp changes envChange p,
      (buildBackupTargets configChanged configPath payloadChanged sfp changes
          envChange).contains p = true →
      p = configPath ∨ p = sfp ∨ (∃ c ∈ changes, p = c.1) ∨
        (∃ ec, envChange = some ec ∧ p = ec.1)) := by
  refine ⟨?_, ?_, ?_, ?_⟩
  · intro scopeOf pre post p raw st
    exact foldlM_authStep_skip scopeOf p (AuthFile.unparsable raw) (fun acc => rfl)
      pre post ([], st)
  · intro scopeOf pre post p st
    exact foldlM_authStep_skip scopeOf p AuthFile.missing (fun acc => rfl)
      pre post ([], st)
  · intro scopeOf pre post p v st hrec
    refine foldlM_authStep_skip scopeOf p (AuthFile.parsed v) ?_ pre post ([], st)
    intro acc
    unfold authStoreLoopStep
    simp [hrec]
  · intro configChanged configPath payloadChanged sfp changes envChange p h
    have h2 : p ∈ buildBackupTargets configChanged configPath payloadChanged sfp
        changes envChange := by simpa using h
    unfold buildBackupTargets at h2
    have hinit : ∀ q, q ∈ (if payloadChanged then
          addUniquePath (if configChanged then addUniquePath [] configPath else []) sfp
        else (if configChanged then addUniquePath [] configPath else [])) →
        q = configPath ∨ q = sfp := by
      intro q hq
      have ht1 : ∀ x, x ∈ (if configChanged then addUniquePath [] configPath else []) →
          x = configPath := by
        intro x hx
        cases configChanged with
        | true =>
          rw [if_pos rfl] at hx
          rcases mem_addUniquePath _ _ _ hx with h3 | h3
          · cases h3
          · exact h3
        | false =>
          rw [if_neg (by simp)] at hx
          cases hx
      cases payloadChanged with
      | true =>
        rw [if_pos rfl] at hq
        rcases mem_addUniquePath _ _ _ hq with h3 | h3
        · exact Or.inl (ht1 _ h3)
        · exact Or.inr h3
      | false =>
        rw [if_neg (by simp)] at hq
        exact Or.inl (ht1 _ hq)
    cases envChange with
    | some ec =>
      rcases mem_addUniquePath _ _ _ h2 with h3 | h3
      · rcases mem_foldl_addUniquePath _ _ _ h3 with h4 | h4
        · rcases hinit _ h4 with h5 | h5
          · exact Or.inl h5
          · exact Or.inr (Or.inl h5)
        · exact Or.inr (Or.inr (Or.inl h4))
      · exact Or.inr (Or.inr (Or.inr ⟨ec, rfl, h3⟩))
    | none =>
      rcases mem_foldl_addUniquePath _ _ _ h2 with h4 | h4
      · rcases hinit _ h4 with h5 | h5
        · exact Or.inl h5
        · exact Or.inr (Or.inl h5)
      · exact Or.inr (Or.inr (Or.inl h4))

/-- Witness for claim C10: one unparsable store and one non-object store
are skipped by the loop at concrete inputs, and a concrete backup-target
membership resolves to one of the four sources. -/
theorem c10_witness :
    authStoreLoop (fun _ => "main")
        [("/s/good.json", AuthFile.parsed (Json.obj [("profiles", Json.obj [])])),
          ("/s/bad.json", AuthFile.unparsable "not json"),
          ("/s/missing.json", AuthFile.missing),
          ("/s/array.json", AuthFile.parsed (Json.arr []))]
        ⟨Json.obj [], initialCounters, []⟩ =
      authStoreLoop (fun _ => "main")
        [("/s/good.json", AuthFile.parsed (Json.obj [("profiles", Json.obj [])]))]
        ⟨Json.obj [], initialCounters, []⟩ ∧
    isRecord (Json.arr []) = false ∧
    (buildBackupTargets true "/s/openclaw.json" true "/s/secrets.enc.json"
        [("/s/auth.json", Json.obj [])] (some ("/s/.env", "E2"))).contains
      "/s/auth.json" = true ∧
    ("/s/auth.json" = "/s/openclaw.json" ∨ "/s/auth.json" = "/s/secrets.enc.json" ∨
      (∃ c ∈ [(("/s/auth.json" : String), Json.obj ([] : List (String × Json)))],
        "/s/auth.json" = c.1) ∨
      (∃ ec, (some (("/s/.env", "E2") : String × String)) = some ec ∧
        "/s/auth.json" = ec.1)) := by
  refine ⟨?_, rfl, rfl, ?_⟩
  · have h1 := c10_theorem.1 (fun _ => "main")
      [("/s/good.json", AuthFile.parsed (Json.obj [("profiles", Json.obj [])]))]
      [("/s/missing.json", AuthFile.missing), ("/s/array.json", AuthFile.parsed (Json.arr []))]
      "/s/bad.json" "not json" ⟨Json.obj [], initialCounters, []⟩
    have h2 := c10_theorem.2.1 (fun _ => "main")
      [("/s/good.json", AuthFile.parsed (Json.obj [("profiles", Json.obj [])]))]
      [("/s/array.json", AuthFile.parsed (Json.arr []))]
      "/s/missing.json" ⟨Json.obj [], initialCounters, []⟩
    have h3 := c10_theorem.2.2.1 (fun _ => "main")
      [("/s/good.json", AuthFile.parsed (Json.obj [("profiles", Json.obj [])]))]
      [] "/s/array.json" (Json.arr []) ⟨Json.obj [], initialCounters, []⟩ rfl
    exact h1.trans (h2.trans h3)
  · exact c10_theorem.2.2.2 true "/s/openclaw.json" true "/s/secrets.enc.json"
      [("/s/auth.json", Json.obj [])] (some ("/s/.env", "E2")) "/s/auth.json" rfl
